import Mathlib

/-!
Verification development for the physics-and-capture engine of
PhoneGameTest (game.js, richer variant).  The engine is embedded
shallowly: JavaScript numbers become exact rationals, and the source's
comparisons of `Math.sqrt(d)` against a nonnegative constant `c` are
embedded as the equivalent comparisons of `d` against `c * c`.
-/

namespace PhoneGame

/-- Source constant `BOUNCE_EFFICIENCY = 0.9` (game.js line 2). -/
def BOUNCE_EFFICIENCY : ℚ := 9 / 10

/-- Source constant `BALL_RADIUS = 15` (game.js line 3). -/
def BALL_RADIUS : ℚ := 15

/-- Source constant `GRAVITY = 0.5` (game.js line 4). -/
def GRAVITY : ℚ := 1 / 2

/-- Source constant `FRICTION = 0.99` (game.js line 5). -/
def FRICTION : ℚ := 99 / 100

/-- Source constant `STICKY_RADIUS = 30` (game.js line 7). -/
def STICKY_RADIUS : ℚ := 30

/-- Source constant `STICKY_STRENGTH = 0.85` (game.js line 8). -/
def STICKY_STRENGTH : ℚ := 17 / 20

/-- Source constant `CORNER_CAPTURE_THRESHOLD = 1.5` (game.js line 10). -/
def CORNER_CAPTURE_THRESHOLD : ℚ := 3 / 2

/-- Source constant `CORNER_CAPTURE_RADIUS_FACTOR = 0.5` (game.js line 11). -/
def CORNER_CAPTURE_RADIUS_FACTOR : ℚ := 1 / 2

/-- Source constant `REQUIRED_CORNERS = 4` (game.js line 12). -/
def REQUIRED_CORNERS : ℕ := 4

/-- One simulated body (the `ball` objects built in `initBalls`, game.js
lines 80-86). -/
structure Ball where
  x : ℚ
  y : ℚ
  vx : ℚ
  vy : ℚ
  radius : ℚ
  deriving DecidableEq, Repr

/-- Per-body capture state (the `ballStates` entries, game.js line 87). -/
structure BallState where
  captured : Bool
  cornerIndex : Int
  deriving DecidableEq, Repr

/-- One sticky spot (game.js lines 102-108).  In the source the center
spot carries no `index` field and the field is only ever read behind an
`isCorner` guard; the embedding stores `-1` there, which is likewise
never read. -/
structure Spot where
  x : ℚ
  y : ℚ
  isCorner : Bool
  index : Int
  deriving DecidableEq, Repr

/-- The `cornerCaptureCache` object, keyed by the corner indices 0-3
(game.js lines 30, 90-93). -/
structure CaptureCache where
  k0 : Bool
  k1 : Bool
  k2 : Bool
  k3 : Bool
  deriving DecidableEq, Repr

/-- Read `cornerCaptureCache[i] || false` (game.js line 462). -/
def CaptureCache.get (c : CaptureCache) (i : Int) : Bool :=
  if i = 0 then c.k0
  else if i = 1 then c.k1
  else if i = 2 then c.k2
  else if i = 3 then c.k3
  else false

/-- Write `cornerCaptureCache[i] = b` for the keys 0-3 used by the
source. -/
def CaptureCache.set (c : CaptureCache) (i : Int) (b : Bool) : CaptureCache :=
  if i = 0 then { c with k0 := b }
  else if i = 1 then { c with k1 := b }
  else if i = 2 then { c with k2 := b }
  else if i = 3 then { c with k3 := b }
  else c

/-- Discrete feedback calls made by the tick code: `playTada()` on
capture, `playWahwah()` on escape, `playBoink(v)` on a boundary bounce
(game.js lines 344, 350, 403). -/
inductive GameEvent where
  | tada : GameEvent
  | wahwah : GameEvent
  | boink : ℚ → GameEvent
  deriving DecidableEq, Repr

/-- The `stickySpots` list built by `initStickySpots` (game.js lines
96-109): center first, then the four outer corners with indices 0-3. -/
def stickySpots (w h : ℚ) : List Spot :=
  [ { x := w / 2, y := h / 2, isCorner := false, index := -1 },
    { x := 0, y := 0, isCorner := true, index := 0 },
    { x := w, y := 0, isCorner := true, index := 1 },
    { x := 0, y := h, isCorner := true, index := 2 },
    { x := w, y := h, isCorner := true, index := 3 } ]

/-- The guard `dist < STICKY_RADIUS` of game.js line 329, with
`dist = Math.sqrt(dx*dx + dy*dy)`; embedded as the equivalent squared
comparison. -/
def inStickyRange (px py : ℚ) (s : Spot) : Bool :=
  decide ((px - s.x) * (px - s.x) + (py - s.y) * (py - s.y)
      < STICKY_RADIUS * STICKY_RADIUS)

/-- The conjunct `dist < STICKY_RADIUS * CORNER_CAPTURE_RADIUS_FACTOR`
of game.js line 337, embedded as the equivalent squared comparison. -/
def inCaptureDisk (px py : ℚ) (s : Spot) : Bool :=
  decide ((px - s.x) * (px - s.x) + (py - s.y) * (py - s.y)
      < (STICKY_RADIUS * CORNER_CAPTURE_RADIUS_FACTOR)
        * (STICKY_RADIUS * CORNER_CAPTURE_RADIUS_FACTOR))

/-- The conjunct `velocity < CORNER_CAPTURE_THRESHOLD` of game.js line
337, with `velocity = Math.sqrt(vx*vx + vy*vy)`; embedded as the
equivalent squared comparison. -/
def slowEnough (vx vy : ℚ) : Bool :=
  decide (vx * vx + vy * vy < CORNER_CAPTURE_THRESHOLD * CORNER_CAPTURE_THRESHOLD)

/-- Accumulator threaded through one body's tick: the ball, its capture
state, the shared corner cache and the feedback events emitted so far. -/
structure TickAcc where
  ball : Ball
  state : BallState
  cache : CaptureCache
  events : List GameEvent
  deriving DecidableEq, Repr

/-- Body of the `for (let spot of stickySpots)` loop in `updateBall`
(game.js lines 324-359): inside the sticky radius the velocity is
dampened, and for corner spots the capture state machine runs. -/
def applySpot (acc : TickAcc) (spot : Spot) : TickAcc :=
  if inStickyRange acc.ball.x acc.ball.y spot then
    let ball := { acc.ball with
      vx := acc.ball.vx * STICKY_STRENGTH,
      vy := acc.ball.vy * STICKY_STRENGTH }
    if spot.isCorner then
      let wasCapture := acc.state.captured
      let isNowCaptured := slowEnough ball.vx ball.vy && inCaptureDisk ball.x ball.y spot
      if isNowCaptured && !wasCapture then
        { ball := ball,
          state := { captured := true, cornerIndex := spot.index },
          cache := acc.cache.set spot.index true,
          events := acc.events ++ [GameEvent.tada] }
      else if !isNowCaptured && wasCapture && (acc.state.cornerIndex == spot.index) then
        { ball := ball,
          state := { captured := false, cornerIndex := -1 },
          cache := acc.cache.set spot.index false,
          events := acc.events ++ [GameEvent.wahwah] }
      else if isNowCaptured then
        { ball := ball,
          state := { captured := true, cornerIndex := spot.index },
          cache := acc.cache.set spot.index true,
          events := acc.events }
      else
        { acc with ball := ball }
    else
      { acc with ball := ball }
  else
    acc

/-- Acceleration, friction, the sticky-spot loop and the position update
of `updateBall` (game.js lines 314-363), i.e. everything before the
boundary-collision block. -/
def integrateBall (w h ax ay : ℚ) (ball : Ball) (st : BallState)
    (cache : CaptureCache) : TickAcc :=
  let ball := { ball with vx := ball.vx + ax, vy := ball.vy + ay }
  let ball := { ball with vx := ball.vx * FRICTION, vy := ball.vy * FRICTION }
  let acc := (stickySpots w h).foldl applySpot
    { ball := ball, state := st, cache := cache, events := [] }
  { acc with ball := { acc.ball with
      x := acc.ball.x + acc.ball.vx,
      y := acc.ball.y + acc.ball.vy } }

/-- Boundary-collision block of `updateBall` (game.js lines 365-399):
the four edge checks run in sequence against the full canvas rectangle;
each clamps the position and reflects the velocity component scaled by
`BOUNCE_EFFICIENCY`.  Returns the resolved ball, the `bounced` flag and
the recorded `bounceVelocity` (absolute pre-reflection component of the
last edge that fired). -/
def resolveBounds (w h : ℚ) (b0 : Ball) : Ball × Bool × ℚ :=
  let r1 :=
    if b0.x - b0.radius < 0 then
      ({ b0 with x := b0.radius, vx := -b0.vx * BOUNCE_EFFICIENCY }, true, |b0.vx|)
    else (b0, false, (0 : ℚ))
  let r2 :=
    if r1.1.x + r1.1.radius > w then
      ({ r1.1 with x := w - r1.1.radius, vx := -r1.1.vx * BOUNCE_EFFICIENCY },
        true, |r1.1.vx|)
    else r1
  let r3 :=
    if r2.1.y - r2.1.radius < 0 then
      ({ r2.1 with y := r2.1.radius, vy := -r2.1.vy * BOUNCE_EFFICIENCY },
        true, |r2.1.vy|)
    else r2
  if r3.1.y + r3.1.radius > h then
    ({ r3.1 with y := h - r3.1.radius, vy := -r3.1.vy * BOUNCE_EFFICIENCY },
      true, |r3.1.vy|)
  else r3

/-- The whole of `updateBall` (game.js lines 314-405) for one body:
integration, capture state machine, position update, boundary collision,
and the `playBoink` call when any bounce occurred. -/
def updateBall (w h ax ay : ℚ) (ball : Ball) (st : BallState)
    (cache : CaptureCache) : TickAcc :=
  let acc := integrateBall w h ax ay ball st cache
  let r := resolveBounds w h acc.ball
  { acc with
    ball := r.1,
    events := acc.events ++ (if r.2.1 then [GameEvent.boink r.2.2] else []) }

/-- Result of updating every body in index order (the loop in `update`,
game.js lines 306-308). -/
structure BallsResult where
  balls : List Ball
  states : List BallState
  cache : CaptureCache
  events : List GameEvent
  deriving DecidableEq, Repr

/-- The `for (let i = 0; i < balls.length; i++) updateBall(balls[i], i)`
loop of `update` (game.js lines 306-308): bodies are processed in index
order and the corner cache is threaded through.  The two lists always
have equal length in the source. -/
def updateBalls (w h ax ay : ℚ) :
    List Ball → List BallState → CaptureCache → BallsResult
  | [], _, cache => { balls := [], states := [], cache := cache, events := [] }
  | _ :: _, [], cache => { balls := [], states := [], cache := cache, events := [] }
  | b :: bs, st :: sts, cache =>
    let acc := updateBall w h ax ay b st cache
    let rest := updateBalls w h ax ay bs sts acc.cache
    { balls := acc.ball :: rest.balls,
      states := acc.state :: rest.states,
      cache := rest.cache,
      events := acc.events ++ rest.events }

/-- The win evaluator `checkWinCondition` (game.js lines 407-430),
returning whether the win branch is taken: all bodies captured and the
set of distinct `cornerIndex` values has `REQUIRED_CORNERS` members. -/
def checkWinCondition (states : List BallState) : Bool :=
  if states.length ≠ REQUIRED_CORNERS then false
  else
    (states.all fun st => st.captured)
      && ((states.map fun st => st.cornerIndex).dedup.length == REQUIRED_CORNERS)

/-- Mutable module state of the engine: the bodies, their capture
states, the corner cache and the `gameRunning` flag (game.js lines
22-30). -/
structure EngineState where
  balls : List Ball
  ballStates : List BallState
  cache : CaptureCache
  gameRunning : Bool
  deriving DecidableEq, Repr

/-- One animation-frame tick: `update` (game.js lines 302-312) guarded
by `gameRunning`, followed by `checkWinCondition`, which clears
`gameRunning` when the win branch is taken (game.js line 418). -/
def update (w h ax ay : ℚ) (s : EngineState) : EngineState × List GameEvent :=
  if !s.gameRunning then (s, [])
  else
    let r := updateBalls w h ax ay s.balls s.ballStates s.cache
    ({ balls := r.balls,
       ballStates := r.states,
       cache := r.cache,
       gameRunning := !checkWinCondition r.states }, r.events)

/-- Repeated ticks under a list of per-tick `(w, h, ax, ay)` inputs. -/
def tickSeq : List (ℚ × ℚ × ℚ × ℚ) → EngineState → EngineState
  | [], s => s
  | (w, h, ax, ay) :: rest, s => tickSeq rest (update w h ax ay s).1

/-- The `initBalls` initializer (game.js lines 64-94): one ball at each
quadrant center with zero velocity, all capture states cleared and the
corner cache all false. -/
def initBalls (w h : ℚ) : List Ball × List BallState × CaptureCache :=
  ( [ { x := w * (1/4), y := h * (1/4), vx := 0, vy := 0, radius := BALL_RADIUS },
      { x := w * (3/4), y := h * (1/4), vx := 0, vy := 0, radius := BALL_RADIUS },
      { x := w * (1/4), y := h * (3/4), vx := 0, vy := 0, radius := BALL_RADIUS },
      { x := w * (3/4), y := h * (3/4), vx := 0, vy := 0, radius := BALL_RADIUS } ],
    [ { captured := false, cornerIndex := -1 },
      { captured := false, cornerIndex := -1 },
      { captured := false, cornerIndex := -1 },
      { captured := false, cornerIndex := -1 } ],
    { k0 := false, k1 := false, k2 := false, k3 := false } )

/-- Modelled from the spec: the two-axis corner test `isWithinCornerRegion`
described in spec.md section 4.1 ("true only if both axes are within a
threshold distance of that specific corner").  No such test exists
anywhere in game.js; this definition follows the spec's words, with the
unspecified axis threshold as a parameter, so that it can be compared
with the source's purely Euclidean guard. -/
def isWithinCornerRegion (thr px py : ℚ) (s : Spot) : Bool :=
  decide (|px - s.x| < thr) && decide (|py - s.y| < thr)

/-- Initial body of the spec scenario for the quadrant-walls claim: the
quadrant-0 ball at the quadrant center with zero velocity (spec.md
section 8). -/
def c2Ball0 : Ball := { x := 150, y := 150, vx := 0, vy := 0, radius := 15 }

/-- The spec scenario run: repeated `updateBall` ticks on a 600 by 600
arena under the constant force `(0, GRAVITY)`. -/
def c2Sim : ℕ → TickAcc
  | 0 => { ball := c2Ball0, state := { captured := false, cornerIndex := -1 },
           cache := { k0 := false, k1 := false, k2 := false, k3 := false }, events := [] }
  | n + 1 =>
    let acc := c2Sim n
    updateBall 600 600 0 GRAVITY acc.ball acc.state acc.cache

/-- Boolean form of the capture-state wellformedness invariant: a
captured body records a corner index 0-3, an uncaptured body records
-1. -/
def stateOkB (st : BallState) : Bool :=
  if st.captured then decide (0 ≤ st.cornerIndex ∧ st.cornerIndex < 4)
  else st.cornerIndex == -1

/-- Engine state for the cache-divergence scenario: body 0 sits
uncaptured and at rest deep in corner 0's capture disk, body 1 is
recorded captured at corner 0 but has drifted into the annulus
(15 <= dist < 30), bodies 2 and 3 are far from every spot. -/
def c8State : EngineState :=
  { balls := [ { x := 0, y := 5, vx := 0, vy := 0, radius := 15 },
               { x := 0, y := 16, vx := 0, vy := 0, radius := 15 },
               { x := 450, y := 150, vx := 0, vy := 0, radius := 15 },
               { x := 150, y := 450, vx := 0, vy := 0, radius := 15 } ],
    ballStates := [ { captured := false, cornerIndex := -1 },
                    { captured := true, cornerIndex := 0 },
                    { captured := false, cornerIndex := -1 },
                    { captured := false, cornerIndex := -1 } ],
    cache := { k0 := true, k1 := false, k2 := false, k3 := false },
    gameRunning := true }

/-- Engine state for the win-latch scenario: each body rests captured in
its own corner's capture disk. -/
def c9State : EngineState :=
  { balls := [ { x := 0, y := 10, vx := 0, vy := 0, radius := 15 },
               { x := 600, y := 10, vx := 0, vy := 0, radius := 15 },
               { x := 0, y := 590, vx := 0, vy := 0, radius := 15 },
               { x := 600, y := 590, vx := 0, vy := 0, radius := 15 } ],
    ballStates := [ { captured := true, cornerIndex := 0 },
                    { captured := true, cornerIndex := 1 },
                    { captured := true, cornerIndex := 2 },
                    { captured := true, cornerIndex := 3 } ],
    cache := { k0 := true, k1 := true, k2 := true, k3 := true },
    gameRunning := true }

theorem c2Tick0 : updateBall 600 600 0 GRAVITY { x := 150, y := (150 : ℚ), vx := 0, vy := (0 : ℚ), radius := 15 } { captured := false, cornerIndex := -1 } { k0 := false, k1 := false, k2 := false, k3 := false } = { ball := { x := 150, y := ((30099 : ℚ)/200), vx := 0, vy := ((99 : ℚ)/200), radius := 15 }, state := { captured := false, cornerIndex := -1 }, cache := { k0 := false, k1 := false, k2 := false, k3 := false }, events := [] } := by
  norm_num [updateBall, integrateBall, applySpot, resolveBounds, stickySpots,
    inStickyRange, inCaptureDisk, slowEnough, List.foldl, STICKY_RADIUS,
    STICKY_STRENGTH, CORNER_CAPTURE_THRESHOLD, CORNER_CAPTURE_RADIUS_FACTOR,
    BOUNCE_EFFICIENCY, GRAVITY, FRICTION]

theorem c2Tick1 : updateBall 600 600 0 GRAVITY { x := 150, y := ((30099 : ℚ)/200), vx := 0, vy := ((99 : ℚ)/200), radius := 15 } { captured := false, cornerIndex := -1 } { k0 := false, k1 := false, k2 := false, k3 := false } = { ball := { x := 150, y := ((3029601 : ℚ)/20000), vx := 0, vy := ((19701 : ℚ)/20000), radius := 15 }, state := { captured := false, cornerIndex := -1 }, cache := { k0 := false, k1 := false, k2 := false, k3 := false }, events := [] } := by
  norm_num [updateBall, integrateBall, applySpot, resolveBounds, stickySpots,
    inStickyRange, inCaptureDisk, slowEnough, List.foldl, STICKY_RADIUS,
    STICKY_STRENGTH, CORNER_CAPTURE_THRESHOLD, CORNER_CAPTURE_RADIUS_FACTOR,
    BOUNCE_EFFICIENCY, GRAVITY, FRICTION]

theorem c2Tick2 : updateBall 600 600 0 GRAVITY { x := 150, y := ((3029601 : ℚ)/20000), vx := 0, vy := ((19701 : ℚ)/20000), radius := 15 } { captured := false, cornerIndex := -1 } { k0 := false, k1 := false, k2 := false, k3 := false } = { ball := { x := 150, y := ((305900499 : ℚ)/2000000), vx := 0, vy := ((2940399 : ℚ)/2000000), radius := 15 }, state := { captured := false, cornerIndex := -1 }, cache := { k0 := false, k1 := false, k2 := false, k3 := false }, events := [] } := by
  norm_num [updateBall, integrateBall, applySpot, resolveBounds, stickySpots,
    inStickyRange, inCaptureDisk, slowEnough, List.foldl, STICKY_RADIUS,
    STICKY_STRENGTH, CORNER_CAPTURE_THRESHOLD, CORNER_CAPTURE_RADIUS_FACTOR,
    BOUNCE_EFFICIENCY, GRAVITY, FRICTION]

theorem c2Tick3 : updateBall 600 600 0 GRAVITY { x := 150, y := ((305900499 : ℚ)/2000000), vx := 0, vy := ((2940399 : ℚ)/2000000), radius := 15 } { captured := false, cornerIndex := -1 } { k0 := false, k1 := false, k2 := false, k3 := false } = { ball := { x := 150, y := ((30980149401 : ℚ)/200000000), vx := 0, vy := ((390099501 : ℚ)/200000000), radius := 15 }, state := { captured := false, cornerIndex := -1 }, cache := { k0 := false, k1 := false, k2 := false, k3 := false }, events := [] } := by
  norm_num [updateBall, integrateBall, applySpot, resolveBounds, stickySpots,
    inStickyRange, inCaptureDisk, slowEnough, List.foldl, STICKY_RADIUS,
    STICKY_STRENGTH, CORNER_CAPTURE_THRESHOLD, CORNER_CAPTURE_RADIUS_FACTOR,
    BOUNCE_EFFICIENCY, GRAVITY, FRICTION]

theorem c2Tick4 : updateBall 600 600 0 GRAVITY { x := 150, y := ((30980149401 : ℚ)/200000000), vx := 0, vy := ((390099501 : ℚ)/200000000), radius := 15 } { captured := false, cornerIndex := -1 } { k0 := false, k1 := false, k2 := false, k3 := false } = { ball := { x := 150, y := ((3146534790699 : ℚ)/20000000000), vx := 0, vy := ((48519850599 : ℚ)/20000000000), radius := 15 }, state := { captured := false, cornerIndex := -1 }, cache := { k0 := false, k1 := false, k2 := false, k3 := false }, events := [] } := by
  norm_num [updateBall, integrateBall, applySpot, resolveBounds, stickySpots,
    inStickyRange, inCaptureDisk, slowEnough, List.foldl, STICKY_RADIUS,
    STICKY_STRENGTH, CORNER_CAPTURE_THRESHOLD, CORNER_CAPTURE_RADIUS_FACTOR,
    BOUNCE_EFFICIENCY, GRAVITY, FRICTION]

theorem c2Tick5 : updateBall 600 600 0 GRAVITY { x := 150, y := ((3146534790699 : ℚ)/20000000000), vx := 0, vy := ((48519850599 : ℚ)/20000000000), radius := 15 } { captured := false, cornerIndex := -1 } { k0 := false, k1 := false, k2 := false, k3 := false } = { ball := { x := 150, y := ((320446944279201 : ℚ)/2000000000000), vx := 0, vy := ((5793465209301 : ℚ)/2000000000000), radius := 15 }, state := { captured := false, cornerIndex := -1 }, cache := { k0 := false, k1 := false, k2 := false, k3 := false }, events := [] } := by
  norm_num [updateBall, integrateBall, applySpot, resolveBounds, stickySpots,
    inStickyRange, inCaptureDisk, slowEnough, List.foldl, STICKY_RADIUS,
    STICKY_STRENGTH, CORNER_CAPTURE_THRESHOLD, CORNER_CAPTURE_RADIUS_FACTOR,
    BOUNCE_EFFICIENCY, GRAVITY, FRICTION]

theorem c2Tick6 : updateBall 600 600 0 GRAVITY { x := 150, y := ((320446944279201 : ℚ)/2000000000000), vx := 0, vy := ((5793465209301 : ℚ)/2000000000000), radius := 15 } { captured := false, cornerIndex := -1 } { k0 := false, k1 := false, k2 := false, k3 := false } = { ball := { x := 150, y := ((32717247483640899 : ℚ)/200000000000000), vx := 0, vy := ((672553055720799 : ℚ)/200000000000000), radius := 15 }, state := { captured := false, cornerIndex := -1 }, cache := { k0 := false, k1 := false, k2 := false, k3 := false }, events := [] } := by
  norm_num [updateBall, integrateBall, applySpot, resolveBounds, stickySpots,
    inStickyRange, inCaptureDisk, slowEnough, List.foldl, STICKY_RADIUS,
    STICKY_STRENGTH, CORNER_CAPTURE_THRESHOLD, CORNER_CAPTURE_RADIUS_FACTOR,
    BOUNCE_EFFICIENCY, GRAVITY, FRICTION]

theorem c2Tick7 : updateBall 600 600 0 GRAVITY { x := 150, y := ((32717247483640899 : ℚ)/200000000000000), vx := 0, vy := ((672553055720799 : ℚ)/200000000000000), radius := 15 } { captured := false, cornerIndex := -1 } { k0 := false, k1 := false, k2 := false, k3 := false } = { ball := { x := 150, y := ((3348207500880449001 : ℚ)/20000000000000000), vx := 0, vy := ((76482752516359101 : ℚ)/20000000000000000), radius := 15 }, state := { captured := false, cornerIndex := -1 }, cache := { k0 := false, k1 := false, k2 := false, k3 := false }, events := [] } := by
  norm_num [updateBall, integrateBall, applySpot, resolveBounds, stickySpots,
    inStickyRange, inCaptureDisk, slowEnough, List.foldl, STICKY_RADIUS,
    STICKY_STRENGTH, CORNER_CAPTURE_THRESHOLD, CORNER_CAPTURE_RADIUS_FACTOR,
    BOUNCE_EFFICIENCY, GRAVITY, FRICTION]

theorem c2Tick8 : updateBall 600 600 0 GRAVITY { x := 150, y := ((3348207500880449001 : ℚ)/20000000000000000), vx := 0, vy := ((76482752516359101 : ℚ)/20000000000000000), radius := 15 } { captured := false, cornerIndex := -1 } { k0 := false, k1 := false, k2 := false, k3 := false } = { ball := { x := 150, y := ((343382542587164451099 : ℚ)/2000000000000000000), vx := 0, vy := ((8561792499119550999 : ℚ)/2000000000000000000), radius := 15 }, state := { captured := false, cornerIndex := -1 }, cache := { k0 := false, k1 := false, k2 := false, k3 := false }, events := [] } := by
  norm_num [updateBall, integrateBall, applySpot, resolveBounds, stickySpots,
    inStickyRange, inCaptureDisk, slowEnough, List.foldl, STICKY_RADIUS,
    STICKY_STRENGTH, CORNER_CAPTURE_THRESHOLD, CORNER_CAPTURE_RADIUS_FACTOR,
    BOUNCE_EFFICIENCY, GRAVITY, FRICTION]

theorem c2Tick9 : updateBall 600 600 0 GRAVITY { x := 150, y := ((343382542587164451099 : ℚ)/2000000000000000000), vx := 0, vy := ((8561792499119550999 : ℚ)/2000000000000000000), radius := 15 } { captured := false, cornerIndex := -1 } { k0 := false, k1 := false, k2 := false, k3 := false } = { ball := { x := 150, y := ((35284871716129280658801 : ℚ)/200000000000000000000), vx := 0, vy := ((946617457412835548901 : ℚ)/200000000000000000000), radius := 15 }, state := { captured := false, cornerIndex := -1 }, cache := { k0 := false, k1 := false, k2 := false, k3 := false }, events := [] } := by
  norm_num [updateBall, integrateBall, applySpot, resolveBounds, stickySpots,
    inStickyRange, inCaptureDisk, slowEnough, List.foldl, STICKY_RADIUS,
    STICKY_STRENGTH, CORNER_CAPTURE_THRESHOLD, CORNER_CAPTURE_RADIUS_FACTOR,
    BOUNCE_EFFICIENCY, GRAVITY, FRICTION]

theorem c2Tick10 : updateBall 600 600 0 GRAVITY { x := 150, y := ((35284871716129280658801 : ℚ)/200000000000000000000), vx := 0, vy := ((946617457412835548901 : ℚ)/200000000000000000000), radius := 15 } { captured := false, cornerIndex := -1 } { k0 := false, k1 := false, k2 := false, k3 := false } = { ball := { x := 150, y := ((3632102299896798785221299 : ℚ)/20000000000000000000000), vx := 0, vy := ((103615128283870719341199 : ℚ)/20000000000000000000000), radius := 15 }, state := { captured := false, cornerIndex := -1 }, cache := { k0 := false, k1 := false, k2 := false, k3 := false }, events := [] } := by
  norm_num [updateBall, integrateBall, applySpot, resolveBounds, stickySpots,
    inStickyRange, inCaptureDisk, slowEnough, List.foldl, STICKY_RADIUS,
    STICKY_STRENGTH, CORNER_CAPTURE_THRESHOLD, CORNER_CAPTURE_RADIUS_FACTOR,
    BOUNCE_EFFICIENCY, GRAVITY, FRICTION]

theorem c2Tick11 : updateBall 600 600 0 GRAVITY { x := 150, y := ((3632102299896798785221299 : ℚ)/20000000000000000000000), vx := 0, vy := ((103615128283870719341199 : ℚ)/20000000000000000000000), radius := 15 } { captured := false, cornerIndex := -1 } { k0 := false, k1 := false, k2 := false, k3 := false } = { ball := { x := 150, y := ((374458127689783079736908601 : ℚ)/2000000000000000000000000), vx := 0, vy := ((11247897700103201214778701 : ℚ)/2000000000000000000000000), radius := 15 }, state := { captured := false, cornerIndex := -1 }, cache := { k0 := false, k1 := false, k2 := false, k3 := false }, events := [] } := by
  norm_num [updateBall, integrateBall, applySpot, resolveBounds, stickySpots,
    inStickyRange, inCaptureDisk, slowEnough, List.foldl, STICKY_RADIUS,
    STICKY_STRENGTH, CORNER_CAPTURE_THRESHOLD, CORNER_CAPTURE_RADIUS_FACTOR,
    BOUNCE_EFFICIENCY, GRAVITY, FRICTION]

theorem c2Tick12 : updateBall 600 600 0 GRAVITY { x := 150, y := ((374458127689783079736908601 : ℚ)/2000000000000000000000000), vx := 0, vy := ((11247897700103201214778701 : ℚ)/2000000000000000000000000), radius := 15 } { captured := false, cornerIndex := -1 } { k0 := false, k1 := false, k2 := false, k3 := false } = { ball := { x := 150, y := ((38658354641288524893953951499 : ℚ)/200000000000000000000000000), vx := 0, vy := ((1212541872310216920263091399 : ℚ)/200000000000000000000000000), radius := 15 }, state := { captured := false, cornerIndex := -1 }, cache := { k0 := false, k1 := false, k2 := false, k3 := false }, events := [] } := by
  norm_num [updateBall, integrateBall, applySpot, resolveBounds, stickySpots,
    inStickyRange, inCaptureDisk, slowEnough, List.foldl, STICKY_RADIUS,
    STICKY_STRENGTH, CORNER_CAPTURE_THRESHOLD, CORNER_CAPTURE_RADIUS_FACTOR,
    BOUNCE_EFFICIENCY, GRAVITY, FRICTION]

theorem c2Tick13 : updateBall 600 600 0 GRAVITY { x := 150, y := ((38658354641288524893953951499 : ℚ)/200000000000000000000000000), vx := 0, vy := ((1212541872310216920263091399 : ℚ)/200000000000000000000000000), radius := 15 } { captured := false, cornerIndex := -1 } { k0 := false, k1 := false, k2 := false, k3 := false } = { ball := { x := 150, y := ((3995777109487563964501441198401 : ℚ)/20000000000000000000000000000), vx := 0, vy := ((129941645358711475106046048501 : ℚ)/20000000000000000000000000000), radius := 15 }, state := { captured := false, cornerIndex := -1 }, cache := { k0 := false, k1 := false, k2 := false, k3 := false }, events := [] } := by
  norm_num [updateBall, integrateBall, applySpot, resolveBounds, stickySpots,
    inStickyRange, inCaptureDisk, slowEnough, List.foldl, STICKY_RADIUS,
    STICKY_STRENGTH, CORNER_CAPTURE_THRESHOLD, CORNER_CAPTURE_RADIUS_FACTOR,
    BOUNCE_EFFICIENCY, GRAVITY, FRICTION]

theorem c2Tick14 : updateBall 600 600 0 GRAVITY { x := 150, y := ((3995777109487563964501441198401 : ℚ)/20000000000000000000000000000), vx := 0, vy := ((129941645358711475106046048501 : ℚ)/20000000000000000000000000000), radius := 15 } { captured := false, cornerIndex := -1 } { k0 := false, k1 := false, k2 := false, k3 := false } = { ball := { x := 150, y := ((413431933839268832485642678641699 : ℚ)/2000000000000000000000000000000), vx := 0, vy := ((13854222890512436035498558801599 : ℚ)/2000000000000000000000000000000), radius := 15 }, state := { captured := false, cornerIndex := -1 }, cache := { k0 := false, k1 := false, k2 := false, k3 := false }, events := [] } := by
  norm_num [updateBall, integrateBall, applySpot, resolveBounds, stickySpots,
    inStickyRange, inCaptureDisk, slowEnough, List.foldl, STICKY_RADIUS,
    STICKY_STRENGTH, CORNER_CAPTURE_THRESHOLD, CORNER_CAPTURE_RADIUS_FACTOR,
    BOUNCE_EFFICIENCY, GRAVITY, FRICTION]

theorem c2Tick15 : updateBall 600 600 0 GRAVITY { x := 150, y := ((413431933839268832485642678641699 : ℚ)/2000000000000000000000000000000), vx := 0, vy := ((13854222890512436035498558801599 : ℚ)/2000000000000000000000000000000), radius := 15 } { captured := false, cornerIndex := -1 } { k0 := false, k1 := false, k2 := false, k3 := false } = { ball := { x := 150, y := ((42813761450087614416078625185528201 : ℚ)/200000000000000000000000000000000), vx := 0, vy := ((1470568066160731167514357321358301 : ℚ)/200000000000000000000000000000000), radius := 15 }, state := { captured := false, cornerIndex := -1 }, cache := { k0 := false, k1 := false, k2 := false, k3 := false }, events := [] } := by
  norm_num [updateBall, integrateBall, applySpot, resolveBounds, stickySpots,
    inStickyRange, inCaptureDisk, slowEnough, List.foldl, STICKY_RADIUS,
    STICKY_STRENGTH, CORNER_CAPTURE_THRESHOLD, CORNER_CAPTURE_RADIUS_FACTOR,
    BOUNCE_EFFICIENCY, GRAVITY, FRICTION]

theorem c2Tick16 : updateBall 600 600 0 GRAVITY { x := 150, y := ((42813761450087614416078625185528201 : ℚ)/200000000000000000000000000000000), vx := 0, vy := ((1470568066160731167514357321358301 : ℚ)/200000000000000000000000000000000), radius := 15 } { captured := false, cornerIndex := -1 } { k0 := false, k1 := false, k2 := false, k3 := false } = { ball := { x := 150, y := ((4436862383558673827191783893367291899 : ℚ)/20000000000000000000000000000000000), vx := 0, vy := ((155486238549912385583921374814471799 : ℚ)/20000000000000000000000000000000000), radius := 15 }, state := { captured := false, cornerIndex := -1 }, cache := { k0 := false, k1 := false, k2 := false, k3 := false }, events := [] } := by
  norm_num [updateBall, integrateBall, applySpot, resolveBounds, stickySpots,
    inStickyRange, inCaptureDisk, slowEnough, List.foldl, STICKY_RADIUS,
    STICKY_STRENGTH, CORNER_CAPTURE_THRESHOLD, CORNER_CAPTURE_RADIUS_FACTOR,
    BOUNCE_EFFICIENCY, GRAVITY, FRICTION]

theorem c2Tick17 : updateBall 600 600 0 GRAVITY { x := 150, y := ((4436862383558673827191783893367291899 : ℚ)/20000000000000000000000000000000000), vx := 0, vy := ((155486238549912385583921374814471799 : ℚ)/20000000000000000000000000000000000), radius := 15 } { captured := false, cornerIndex := -1 } { k0 := false, k1 := false, k2 := false, k3 := false } = { ball := { x := 150, y := ((460069375972308708891986605443361898001 : ℚ)/2000000000000000000000000000000000000), vx := 0, vy := ((16383137616441326172808216106632708101 : ℚ)/2000000000000000000000000000000000000), radius := 15 }, state := { captured := false, cornerIndex := -1 }, cache := { k0 := false, k1 := false, k2 := false, k3 := false }, events := [] } := by
  norm_num [updateBall, integrateBall, applySpot, resolveBounds, stickySpots,
    inStickyRange, inCaptureDisk, slowEnough, List.foldl, STICKY_RADIUS,
    STICKY_STRENGTH, CORNER_CAPTURE_THRESHOLD, CORNER_CAPTURE_RADIUS_FACTOR,
    BOUNCE_EFFICIENCY, GRAVITY, FRICTION]

theorem c2Tick18 : updateBall 600 600 0 GRAVITY { x := 150, y := ((460069375972308708891986605443361898001 : ℚ)/2000000000000000000000000000000000000), vx := 0, vy := ((16383137616441326172808216106632708101 : ℚ)/2000000000000000000000000000000000000), radius := 15 } { captured := false, cornerIndex := -1 } { k0 := false, k1 := false, k2 := false, k3 := false } = { ball := { x := 150, y := ((47727868221258562180306673938892827902099 : ℚ)/200000000000000000000000000000000000000), vx := 0, vy := ((1720930624027691291108013394556638101999 : ℚ)/200000000000000000000000000000000000000), radius := 15 }, state := { captured := false, cornerIndex := -1 }, cache := { k0 := false, k1 := false, k2 := false, k3 := false }, events := [] } := by
  norm_num [updateBall, integrateBall, applySpot, resolveBounds, stickySpots,
    inStickyRange, inCaptureDisk, slowEnough, List.foldl, STICKY_RADIUS,
    STICKY_STRENGTH, CORNER_CAPTURE_THRESHOLD, CORNER_CAPTURE_RADIUS_FACTOR,
    BOUNCE_EFFICIENCY, GRAVITY, FRICTION]

theorem c2Tick19 : updateBall 600 600 0 GRAVITY { x := 150, y := ((47727868221258562180306673938892827902099 : ℚ)/200000000000000000000000000000000000000), vx := 0, vy := ((1720930624027691291108013394556638101999 : ℚ)/200000000000000000000000000000000000000), radius := 15 } { captured := false, cornerIndex := -1 } { k0 := false, k1 := false, k2 := false, k3 := false } = { ball := { x := 150, y := ((4953058953904597655850360719950389962307801 : ℚ)/20000000000000000000000000000000000000000), vx := 0, vy := ((180272131778741437819693326061107172097901 : ℚ)/20000000000000000000000000000000000000000), radius := 15 }, state := { captured := false, cornerIndex := -1 }, cache := { k0 := false, k1 := false, k2 := false, k3 := false }, events := [] } := by
  norm_num [updateBall, integrateBall, applySpot, resolveBounds, stickySpots,
    inStickyRange, inCaptureDisk, slowEnough, List.foldl, STICKY_RADIUS,
    STICKY_STRENGTH, CORNER_CAPTURE_THRESHOLD, CORNER_CAPTURE_RADIUS_FACTOR,
    BOUNCE_EFFICIENCY, GRAVITY, FRICTION]

theorem c2Tick20 : updateBall 600 600 0 GRAVITY { x := 150, y := ((4953058953904597655850360719950389962307801 : ℚ)/20000000000000000000000000000000000000000), vx := 0, vy := ((180272131778741437819693326061107172097901 : ℚ)/20000000000000000000000000000000000000000), radius := 15 } { captured := false, cornerIndex := -1 } { k0 := false, k1 := false, k2 := false, k3 := false } = { ball := { x := 150, y := ((514142836436555167929185711275088606268472299 : ℚ)/2000000000000000000000000000000000000000000), vx := 0, vy := ((18836941046095402344149639280049610037692199 : ℚ)/2000000000000000000000000000000000000000000), radius := 15 }, state := { captured := false, cornerIndex := -1 }, cache := { k0 := false, k1 := false, k2 := false, k3 := false }, events := [] } := by
  norm_num [updateBall, integrateBall, applySpot, resolveBounds, stickySpots,
    inStickyRange, inCaptureDisk, slowEnough, List.foldl, STICKY_RADIUS,
    STICKY_STRENGTH, CORNER_CAPTURE_THRESHOLD, CORNER_CAPTURE_RADIUS_FACTOR,
    BOUNCE_EFFICIENCY, GRAVITY, FRICTION]

theorem c2Tick21 : updateBall 600 600 0 GRAVITY { x := 150, y := ((514142836436555167929185711275088606268472299 : ℚ)/2000000000000000000000000000000000000000000), vx := 0, vy := ((18836941046095402344149639280049610037692199 : ℚ)/2000000000000000000000000000000000000000000), radius := 15 } { captured := false, cornerIndex := -1 } { k0 := false, k1 := false, k2 := false, k3 := false } = { ball := { x := 150, y := ((53378140807218961624989385416233772020578757601 : ℚ)/200000000000000000000000000000000000000000000), vx := 0, vy := ((1963857163563444832070814288724911393731527701 : ℚ)/200000000000000000000000000000000000000000000), radius := 15 }, state := { captured := false, cornerIndex := -1 }, cache := { k0 := false, k1 := false, k2 := false, k3 := false }, events := [] } := by
  norm_num [updateBall, integrateBall, applySpot, resolveBounds, stickySpots,
    inStickyRange, inCaptureDisk, slowEnough, List.foldl, STICKY_RADIUS,
    STICKY_STRENGTH, CORNER_CAPTURE_THRESHOLD, CORNER_CAPTURE_RADIUS_FACTOR,
    BOUNCE_EFFICIENCY, GRAVITY, FRICTION]

theorem c2Tick22 : updateBall 600 600 0 GRAVITY { x := 150, y := ((53378140807218961624989385416233772020578757601 : ℚ)/200000000000000000000000000000000000000000000), vx := 0, vy := ((1963857163563444832070814288724911393731527701 : ℚ)/200000000000000000000000000000000000000000000), radius := 15 } { captured := false, cornerIndex := -1 } { k0 := false, k1 := false, k2 := false, k3 := false } = { ball := { x := 150, y := ((5542135939914677200873949156207143430037297002499 : ℚ)/20000000000000000000000000000000000000000000000), vx := 0, vy := ((204321859192781038375010614583766227979421242399 : ℚ)/20000000000000000000000000000000000000000000000), radius := 15 }, state := { captured := false, cornerIndex := -1 }, cache := { k0 := false, k1 := false, k2 := false, k3 := false }, events := [] } := by
  norm_num [updateBall, integrateBall, applySpot, resolveBounds, stickySpots,
    inStickyRange, inCaptureDisk, slowEnough, List.foldl, STICKY_RADIUS,
    STICKY_STRENGTH, CORNER_CAPTURE_THRESHOLD, CORNER_CAPTURE_RADIUS_FACTOR,
    BOUNCE_EFFICIENCY, GRAVITY, FRICTION]

theorem c2Tick23 : updateBall 600 600 0 GRAVITY { x := 150, y := ((5542135939914677200873949156207143430037297002499 : ℚ)/20000000000000000000000000000000000000000000000), vx := 0, vy := ((204321859192781038375010614583766227979421242399 : ℚ)/20000000000000000000000000000000000000000000000), radius := 15 } { captured := false, cornerIndex := -1 } { k0 := false, k1 := false, k2 := false, k3 := false } = { ball := { x := 150, y := ((575431458051553042886520966464507199573692403247401 : ℚ)/2000000000000000000000000000000000000000000000000), vx := 0, vy := ((21217864060085322799126050843792856569962702997501 : ℚ)/2000000000000000000000000000000000000000000000000), radius := 15 }, state := { captured := false, cornerIndex := -1 }, cache := { k0 := false, k1 := false, k2 := false, k3 := false }, events := [] } := by
  norm_num [updateBall, integrateBall, applySpot, resolveBounds, stickySpots,
    inStickyRange, inCaptureDisk, slowEnough, List.foldl, STICKY_RADIUS,
    STICKY_STRENGTH, CORNER_CAPTURE_THRESHOLD, CORNER_CAPTURE_RADIUS_FACTOR,
    BOUNCE_EFFICIENCY, GRAVITY, FRICTION]

theorem c2Tick24 : updateBall 600 600 0 GRAVITY { x := 150, y := ((575431458051553042886520966464507199573692403247401 : ℚ)/2000000000000000000000000000000000000000000000000), vx := 0, vy := ((21217864060085322799126050843792856569962702997501 : ℚ)/2000000000000000000000000000000000000000000000000), radius := 15 } { captured := false, cornerIndex := -1 } { k0 := false, k1 := false, k2 := false, k3 := false } = { ball := { x := 150, y := ((59742714347103751245765575679986212757795547921492699 : ℚ)/200000000000000000000000000000000000000000000000000), vx := 0, vy := ((2199568541948446957113479033535492800426307596752599 : ℚ)/200000000000000000000000000000000000000000000000000), radius := 15 }, state := { captured := false, cornerIndex := -1 }, cache := { k0 := false, k1 := false, k2 := false, k3 := false }, events := [] } := by
  norm_num [updateBall, integrateBall, applySpot, resolveBounds, stickySpots,
    inStickyRange, inCaptureDisk, slowEnough, List.foldl, STICKY_RADIUS,
    STICKY_STRENGTH, CORNER_CAPTURE_THRESHOLD, CORNER_CAPTURE_RADIUS_FACTOR,
    BOUNCE_EFFICIENCY, GRAVITY, FRICTION]

theorem c2Tick25 : updateBall 600 600 0 GRAVITY { x := 150, y := ((59742714347103751245765575679986212757795547921492699 : ℚ)/200000000000000000000000000000000000000000000000000), vx := 0, vy := ((2199568541948446957113479033535492800426307596752599 : ℚ)/200000000000000000000000000000000000000000000000000), radius := 15 } { captured := false, cornerIndex := -1 } { k0 := false, k1 := false, k2 := false, k3 := false } = { ball := { x := 150, y := ((6201928720363271373330791992318635063021759244227777201 : ℚ)/20000000000000000000000000000000000000000000000000000), vx := 0, vy := ((227657285652896248754234424320013787242204452078507301 : ℚ)/20000000000000000000000000000000000000000000000000000), radius := 15 }, state := { captured := false, cornerIndex := -1 }, cache := { k0 := false, k1 := false, k2 := false, k3 := false }, events := [] } := by
  norm_num [updateBall, integrateBall, applySpot, resolveBounds, stickySpots,
    inStickyRange, inCaptureDisk, slowEnough, List.foldl, STICKY_RADIUS,
    STICKY_STRENGTH, CORNER_CAPTURE_THRESHOLD, CORNER_CAPTURE_RADIUS_FACTOR,
    BOUNCE_EFFICIENCY, GRAVITY, FRICTION]

theorem c2Tick26 : updateBall 600 600 0 GRAVITY { x := 150, y := ((6201928720363271373330791992318635063021759244227777201 : ℚ)/20000000000000000000000000000000000000000000000000000), vx := 0, vy := ((227657285652896248754234424320013787242204452078507301 : ℚ)/20000000000000000000000000000000000000000000000000000), radius := 15 } { captured := false, cornerIndex := -1 } { k0 := false, k1 := false, k2 := false, k3 := false } = { ball := { x := 150, y := ((643720943315963865959748407239544871239154165178549942899 : ℚ)/2000000000000000000000000000000000000000000000000000000), vx := 0, vy := ((23528071279636728626669208007681364936978240755772222799 : ℚ)/2000000000000000000000000000000000000000000000000000000), radius := 15 }, state := { captured := false, cornerIndex := -1 }, cache := { k0 := false, k1 := false, k2 := false, k3 := false }, events := [] } := by
  norm_num [updateBall, integrateBall, applySpot, resolveBounds, stickySpots,
    inStickyRange, inCaptureDisk, slowEnough, List.foldl, STICKY_RADIUS,
    STICKY_STRENGTH, CORNER_CAPTURE_THRESHOLD, CORNER_CAPTURE_RADIUS_FACTOR,
    BOUNCE_EFFICIENCY, GRAVITY, FRICTION]

theorem c2Tick27 : updateBall 600 600 0 GRAVITY { x := 150, y := ((643720943315963865959748407239544871239154165178549942899 : ℚ)/2000000000000000000000000000000000000000000000000000000), vx := 0, vy := ((23528071279636728626669208007681364936978240755772222799 : ℚ)/2000000000000000000000000000000000000000000000000000000), radius := 15 } { captured := false, cornerIndex := -1 } { k0 := false, k1 := false, k2 := false, k3 := false } = { ball := { x := 150, y := ((66800373388280422730015092316714942252676262352676444347001 : ℚ)/200000000000000000000000000000000000000000000000000000000), vx := 0, vy := ((2428279056684036134040251592760455128760845834821450057101 : ℚ)/200000000000000000000000000000000000000000000000000000000), radius := 15 }, state := { captured := false, cornerIndex := -1 }, cache := { k0 := false, k1 := false, k2 := false, k3 := false }, events := [] } := by
  norm_num [updateBall, integrateBall, applySpot, resolveBounds, stickySpots,
    inStickyRange, inCaptureDisk, slowEnough, List.foldl, STICKY_RADIUS,
    STICKY_STRENGTH, CORNER_CAPTURE_THRESHOLD, CORNER_CAPTURE_RADIUS_FACTOR,
    BOUNCE_EFFICIENCY, GRAVITY, FRICTION]

theorem c2Tick28 : updateBall 600 600 0 GRAVITY { x := 150, y := ((66800373388280422730015092316714942252676262352676444347001 : ℚ)/200000000000000000000000000000000000000000000000000000000), vx := 0, vy := ((2428279056684036134040251592760455128760845834821450057101 : ℚ)/200000000000000000000000000000000000000000000000000000000), radius := 15 } { captured := false, cornerIndex := -1 } { k0 := false, k1 := false, k2 := false, k3 := false } = { ball := { x := 150, y := ((6930336965439761850271494139354779283014949972914967990353099 : ℚ)/20000000000000000000000000000000000000000000000000000000000), vx := 0, vy := ((250299626611719577269984907683285057747323737647323555652999 : ℚ)/20000000000000000000000000000000000000000000000000000000000), radius := 15 }, state := { captured := false, cornerIndex := -1 }, cache := { k0 := false, k1 := false, k2 := false, k3 := false }, events := [] } := by
  norm_num [updateBall, integrateBall, applySpot, resolveBounds, stickySpots,
    inStickyRange, inCaptureDisk, slowEnough, List.foldl, STICKY_RADIUS,
    STICKY_STRENGTH, CORNER_CAPTURE_THRESHOLD, CORNER_CAPTURE_RADIUS_FACTOR,
    BOUNCE_EFFICIENCY, GRAVITY, FRICTION]

theorem c2Tick29 : updateBall 600 600 0 GRAVITY { x := 150, y := ((6930336965439761850271494139354779283014949972914967990353099 : ℚ)/20000000000000000000000000000000000000000000000000000000000), vx := 0, vy := ((250299626611719577269984907683285057747323737647323555652999 : ℚ)/20000000000000000000000000000000000000000000000000000000000), radius := 15 } { captured := false, cornerIndex := -1 } { k0 := false, k1 := false, k2 := false, k3 := false } = { ball := { x := 150, y := ((718803359578536423176877919796123149018480047318581831044956801 : ℚ)/2000000000000000000000000000000000000000000000000000000000000), vx := 0, vy := ((25769663034560238149728505860645220716985050027085032009646901 : ℚ)/2000000000000000000000000000000000000000000000000000000000000), radius := 15 }, state := { captured := false, cornerIndex := -1 }, cache := { k0 := false, k1 := false, k2 := false, k3 := false }, events := [] } := by
  norm_num [updateBall, integrateBall, applySpot, resolveBounds, stickySpots,
    inStickyRange, inCaptureDisk, slowEnough, List.foldl, STICKY_RADIUS,
    STICKY_STRENGTH, CORNER_CAPTURE_THRESHOLD, CORNER_CAPTURE_RADIUS_FACTOR,
    BOUNCE_EFFICIENCY, GRAVITY, FRICTION]

theorem c2Tick30 : updateBall 600 600 0 GRAVITY { x := 150, y := ((718803359578536423176877919796123149018480047318581831044956801 : ℚ)/2000000000000000000000000000000000000000000000000000000000000), vx := 0, vy := ((25769663034560238149728505860645220716985050027085032009646901 : ℚ)/2000000000000000000000000000000000000000000000000000000000000), radius := 15 } { captured := false, cornerIndex := -1 } { k0 := false, k1 := false, k2 := false, k3 := false } = { ball := { x := 150, y := ((74530532598275105894510914059816191752829524684539601273450723299 : ℚ)/200000000000000000000000000000000000000000000000000000000000000), vx := 0, vy := ((2650196640421463576823122080203876850981519952681418168955043199 : ℚ)/200000000000000000000000000000000000000000000000000000000000000), radius := 15 }, state := { captured := false, cornerIndex := -1 }, cache := { k0 := false, k1 := false, k2 := false, k3 := false }, events := [] } := by
  norm_num [updateBall, integrateBall, applySpot, resolveBounds, stickySpots,
    inStickyRange, inCaptureDisk, slowEnough, List.foldl, STICKY_RADIUS,
    STICKY_STRENGTH, CORNER_CAPTURE_THRESHOLD, CORNER_CAPTURE_RADIUS_FACTOR,
    BOUNCE_EFFICIENCY, GRAVITY, FRICTION]

theorem c2Tick31 : updateBall 600 600 0 GRAVITY { x := 150, y := ((74530532598275105894510914059816191752829524684539601273450723299 : ℚ)/200000000000000000000000000000000000000000000000000000000000000), vx := 0, vy := ((2650196640421463576823122080203876850981519952681418168955043199 : ℚ)/200000000000000000000000000000000000000000000000000000000000000), radius := 15 } { captured := false, cornerIndex := -1 } { k0 := false, k1 := false, k2 := false, k3 := false } = { ball := { x := 150, y := ((7725322727229235483556580491921802983530122943769420526071621606601 : ℚ)/20000000000000000000000000000000000000000000000000000000000000000), vx := 0, vy := ((272269467401724894105489085940183808247170475315460398726549276701 : ℚ)/20000000000000000000000000000000000000000000000000000000000000000), radius := 15 }, state := { captured := false, cornerIndex := -1 }, cache := { k0 := false, k1 := false, k2 := false, k3 := false }, events := [] } := by
  norm_num [updateBall, integrateBall, applySpot, resolveBounds, stickySpots,
    inStickyRange, inCaptureDisk, slowEnough, List.foldl, STICKY_RADIUS,
    STICKY_STRENGTH, CORNER_CAPTURE_THRESHOLD, CORNER_CAPTURE_RADIUS_FACTOR,
    BOUNCE_EFFICIENCY, GRAVITY, FRICTION]

theorem c2Tick32 : updateBall 600 600 0 GRAVITY { x := 150, y := ((7725322727229235483556580491921802983530122943769420526071621606601 : ℚ)/20000000000000000000000000000000000000000000000000000000000000000), vx := 0, vy := ((272269467401724894105489085940183808247170475315460398726549276701 : ℚ)/20000000000000000000000000000000000000000000000000000000000000000), radius := 15 } { captured := false, cornerIndex := -1 } { k0 := false, k1 := false, k2 := false, k3 := false } = { ball := { x := 150, y := ((800476949995694312872101468700258495369482171433172632081090539053499 : ℚ)/2000000000000000000000000000000000000000000000000000000000000000000), vx := 0, vy := ((27944677272770764516443419508078197016469877056230579473928378393399 : ℚ)/2000000000000000000000000000000000000000000000000000000000000000000), radius := 15 }, state := { captured := false, cornerIndex := -1 }, cache := { k0 := false, k1 := false, k2 := false, k3 := false }, events := [] } := by
  norm_num [updateBall, integrateBall, applySpot, resolveBounds, stickySpots,
    inStickyRange, inCaptureDisk, slowEnough, List.foldl, STICKY_RADIUS,
    STICKY_STRENGTH, CORNER_CAPTURE_THRESHOLD, CORNER_CAPTURE_RADIUS_FACTOR,
    BOUNCE_EFFICIENCY, GRAVITY, FRICTION]

theorem c2Tick33 : updateBall 600 600 0 GRAVITY { x := 150, y := ((800476949995694312872101468700258495369482171433172632081090539053499 : ℚ)/2000000000000000000000000000000000000000000000000000000000000000000), vx := 0, vy := ((27944677272770764516443419508078197016469877056230579473928378393399 : ℚ)/2000000000000000000000000000000000000000000000000000000000000000000), radius := 15 } { captured := false, cornerIndex := -1 } { k0 := false, k1 := false, k2 := false, k3 := false } = { ball := { x := 150, y := ((82913218049573736974338045401325591041578734971884090576027963366296401 : ℚ)/200000000000000000000000000000000000000000000000000000000000000000000), vx := 0, vy := ((2865523050004305687127898531299741504630517828566827367918909460946501 : ℚ)/200000000000000000000000000000000000000000000000000000000000000000000), radius := 15 }, state := { captured := false, cornerIndex := -1 }, cache := { k0 := false, k1 := false, k2 := false, k3 := false }, events := [] } := by
  norm_num [updateBall, integrateBall, applySpot, resolveBounds, stickySpots,
    inStickyRange, inCaptureDisk, slowEnough, List.foldl, STICKY_RADIUS,
    STICKY_STRENGTH, CORNER_CAPTURE_THRESHOLD, CORNER_CAPTURE_RADIUS_FACTOR,
    BOUNCE_EFFICIENCY, GRAVITY, FRICTION]

theorem c2Tick34 : updateBall 600 600 0 GRAVITY { x := 150, y := ((82913218049573736974338045401325591041578734971884090576027963366296401 : ℚ)/200000000000000000000000000000000000000000000000000000000000000000000), vx := 0, vy := ((2865523050004305687127898531299741504630517828566827367918909460946501 : ℚ)/200000000000000000000000000000000000000000000000000000000000000000000), radius := 15 } { captured := false, cornerIndex := -1 } { k0 := false, k1 := false, k2 := false, k3 := false } = { ball := { x := 150, y := ((8584908586907799960459466494731233513116294762216524967026768373263343699 : ℚ)/20000000000000000000000000000000000000000000000000000000000000000000000), vx := 0, vy := ((293586781950426263025661954598674408958421265028115909423972036633703599 : ℚ)/20000000000000000000000000000000000000000000000000000000000000000000000), radius := 15 }, state := { captured := false, cornerIndex := -1 }, cache := { k0 := false, k1 := false, k2 := false, k3 := false }, events := [] } := by
  norm_num [updateBall, integrateBall, applySpot, resolveBounds, stickySpots,
    inStickyRange, inCaptureDisk, slowEnough, List.foldl, STICKY_RADIUS,
    STICKY_STRENGTH, CORNER_CAPTURE_THRESHOLD, CORNER_CAPTURE_RADIUS_FACTOR,
    BOUNCE_EFFICIENCY, GRAVITY, FRICTION]

theorem c2Tick35 : updateBall 600 600 0 GRAVITY { x := 150, y := ((8584908586907799960459466494731233513116294762216524967026768373263343699 : ℚ)/20000000000000000000000000000000000000000000000000000000000000000000000), vx := 0, vy := ((293586781950426263025661954598674408958421265028115909423972036633703599 : ℚ)/20000000000000000000000000000000000000000000000000000000000000000000000), radius := 15 } { captured := false, cornerIndex := -1 } { k0 := false, k1 := false, k2 := false, k3 := false } = { ball := { x := 150, y := ((888545950103872196085487182978392117798513181459435971735650068953071026201 : ℚ)/2000000000000000000000000000000000000000000000000000000000000000000000000), vx := 0, vy := ((30055091413092200039540533505268766486883705237783475032973231626736656301 : ℚ)/2000000000000000000000000000000000000000000000000000000000000000000000000), radius := 15 }, state := { captured := false, cornerIndex := -1 }, cache := { k0 := false, k1 := false, k2 := false, k3 := false }, events := [] } := by
  norm_num [updateBall, integrateBall, applySpot, resolveBounds, stickySpots,
    inStickyRange, inCaptureDisk, slowEnough, List.foldl, STICKY_RADIUS,
    STICKY_STRENGTH, CORNER_CAPTURE_THRESHOLD, CORNER_CAPTURE_RADIUS_FACTOR,
    BOUNCE_EFFICIENCY, GRAVITY, FRICTION]

theorem c2Tick36 : updateBall 600 600 0 GRAVITY { x := 150, y := ((888545950103872196085487182978392117798513181459435971735650068953071026201 : ℚ)/2000000000000000000000000000000000000000000000000000000000000000000000000), vx := 0, vy := ((30055091413092200039540533505268766486883705237783475032973231626736656301 : ℚ)/2000000000000000000000000000000000000000000000000000000000000000000000000), radius := 15 } { captured := false, cornerIndex := -1 } { k0 := false, k1 := false, k2 := false, k3 := false } = { ball := { x := 150, y := ((91929049060283347412463231114860819662052804964484161201829356826354031593899 : ℚ)/200000000000000000000000000000000000000000000000000000000000000000000000000), vx := 0, vy := ((3074454049896127803914512817021607882201486818540564028264349931046928973799 : ℚ)/200000000000000000000000000000000000000000000000000000000000000000000000000), radius := 15 }, state := { captured := false, cornerIndex := -1 }, cache := { k0 := false, k1 := false, k2 := false, k3 := false }, events := [] } := by
  norm_num [updateBall, integrateBall, applySpot, resolveBounds, stickySpots,
    inStickyRange, inCaptureDisk, slowEnough, List.foldl, STICKY_RADIUS,
    STICKY_STRENGTH, CORNER_CAPTURE_THRESHOLD, CORNER_CAPTURE_RADIUS_FACTOR,
    BOUNCE_EFFICIENCY, GRAVITY, FRICTION]

theorem c2Tick37 : updateBall 600 600 0 GRAVITY { x := 150, y := ((91929049060283347412463231114860819662052804964484161201829356826354031593899 : ℚ)/200000000000000000000000000000000000000000000000000000000000000000000000000), vx := 0, vy := ((3074454049896127803914512817021607882201486818540564028264349931046928973799 : ℚ)/200000000000000000000000000000000000000000000000000000000000000000000000000), radius := 15 } { captured := false, cornerIndex := -1 } { k0 := false, k1 := false, k2 := false, k3 := false } = { ball := { x := 150, y := ((9507175856968051393833859880371221146543227691483931958981106325809049127796001 : ℚ)/20000000000000000000000000000000000000000000000000000000000000000000000000000), vx := 0, vy := ((314270950939716652587536768885139180337947195035515838798170643173645968406101 : ℚ)/20000000000000000000000000000000000000000000000000000000000000000000000000000), radius := 15 }, state := { captured := false, cornerIndex := -1 }, cache := { k0 := false, k1 := false, k2 := false, k3 := false }, events := [] } := by
  norm_num [updateBall, integrateBall, applySpot, resolveBounds, stickySpots,
    inStickyRange, inCaptureDisk, slowEnough, List.foldl, STICKY_RADIUS,
    STICKY_STRENGTH, CORNER_CAPTURE_THRESHOLD, CORNER_CAPTURE_RADIUS_FACTOR,
    BOUNCE_EFFICIENCY, GRAVITY, FRICTION]

theorem c2Tick38 : updateBall 600 600 0 GRAVITY { x := 150, y := ((9507175856968051393833859880371221146543227691483931958981106325809049127796001 : ℚ)/20000000000000000000000000000000000000000000000000000000000000000000000000000), vx := 0, vy := ((314270950939716652587536768885139180337947195035515838798170643173645968406101 : ℚ)/20000000000000000000000000000000000000000000000000000000000000000000000000000), radius := 15 } { captured := false, cornerIndex := -1 } { k0 := false, k1 := false, k2 := false, k3 := false } = { ball := { x := 150, y := ((982820409839837087989552128156750893507779541456909263939129526255095863651804099 : ℚ)/2000000000000000000000000000000000000000000000000000000000000000000000000000000), vx := 0, vy := ((32102824143031948606166140119628778853456772308516068041018893674190950872203999 : ℚ)/2000000000000000000000000000000000000000000000000000000000000000000000000000000), radius := 15 }, state := { captured := false, cornerIndex := -1 }, cache := { k0 := false, k1 := false, k2 := false, k3 := false }, events := [] } := by
  norm_num [updateBall, integrateBall, applySpot, resolveBounds, stickySpots,
    inStickyRange, inCaptureDisk, slowEnough, List.foldl, STICKY_RADIUS,
    STICKY_STRENGTH, CORNER_CAPTURE_THRESHOLD, CORNER_CAPTURE_RADIUS_FACTOR,
    BOUNCE_EFFICIENCY, GRAVITY, FRICTION]

theorem c2Tick39 : updateBall 600 600 0 GRAVITY { x := 150, y := ((982820409839837087989552128156750893507779541456909263939129526255095863651804099 : ℚ)/2000000000000000000000000000000000000000000000000000000000000000000000000000000), vx := 0, vy := ((32102824143031948606166140119628778853456772308516068041018893674190950872203999 : ℚ)/2000000000000000000000000000000000000000000000000000000000000000000000000000000), radius := 15 } { captured := false, cornerIndex := -1 } { k0 := false, k1 := false, k2 := false, k3 := false } = { ball := { x := 150, y := ((101559220574143871710965660687518338457270174604234017129973823099254490501528605801 : ℚ)/200000000000000000000000000000000000000000000000000000000000000000000000000000000), vx := 0, vy := ((3277179590160162912010447871843249106492220458543090736060870473744904136348195901 : ℚ)/200000000000000000000000000000000000000000000000000000000000000000000000000000000), radius := 15 }, state := { captured := false, cornerIndex := -1 }, cache := { k0 := false, k1 := false, k2 := false, k3 := false }, events := [] } := by
  norm_num [updateBall, integrateBall, applySpot, resolveBounds, stickySpots,
    inStickyRange, inCaptureDisk, slowEnough, List.foldl, STICKY_RADIUS,
    STICKY_STRENGTH, CORNER_CAPTURE_THRESHOLD, CORNER_CAPTURE_RADIUS_FACTOR,
    BOUNCE_EFFICIENCY, GRAVITY, FRICTION]

theorem c2Tick40 : updateBall 600 600 0 GRAVITY { x := 150, y := ((101559220574143871710965660687518338457270174604234017129973823099254490501528605801 : ℚ)/200000000000000000000000000000000000000000000000000000000000000000000000000000000), vx := 0, vy := ((3277179590160162912010447871843249106492220458543090736060870473744904136348195901 : ℚ)/200000000000000000000000000000000000000000000000000000000000000000000000000000000), radius := 15 } { captured := false, cornerIndex := -1 } { k0 := false, k1 := false, k2 := false, k3 := false } = { ball := { x := 150, y := ((10490262836840243299385600408064315507269747285819167695867408486826194559651331974299 : ℚ)/20000000000000000000000000000000000000000000000000000000000000000000000000000000000), vx := 0, vy := ((334340779425856128289034339312481661542729825395765982870026176900745509498471394199 : ℚ)/20000000000000000000000000000000000000000000000000000000000000000000000000000000000), radius := 15 }, state := { captured := false, cornerIndex := -1 }, cache := { k0 := false, k1 := false, k2 := false, k3 := false }, events := [] } := by
  norm_num [updateBall, integrateBall, applySpot, resolveBounds, stickySpots,
    inStickyRange, inCaptureDisk, slowEnough, List.foldl, STICKY_RADIUS,
    STICKY_STRENGTH, CORNER_CAPTURE_THRESHOLD, CORNER_CAPTURE_RADIUS_FACTOR,
    BOUNCE_EFFICIENCY, GRAVITY, FRICTION]

theorem c2Tick41 : updateBall 600 600 0 GRAVITY { x := 150, y := ((10490262836840243299385600408064315507269747285819167695867408486826194559651331974299 : ℚ)/20000000000000000000000000000000000000000000000000000000000000000000000000000000000), vx := 0, vy := ((334340779425856128289034339312481661542729825395765982870026176900745509498471394199 : ℚ)/20000000000000000000000000000000000000000000000000000000000000000000000000000000000), radius := 15 } { captured := false, cornerIndex := -1 } { k0 := false, k1 := false, k2 := false, k3 := false } = { ball := { x := 150, y := ((1083116020847184086639174440398367235219704981296097601890873440195793261405481865455601 : ℚ)/2000000000000000000000000000000000000000000000000000000000000000000000000000000000000), vx := 0, vy := ((34089737163159756700614399591935684492730252714180832304132591513173805440348668025701 : ℚ)/2000000000000000000000000000000000000000000000000000000000000000000000000000000000000), radius := 15 }, state := { captured := false, cornerIndex := -1 }, cache := { k0 := false, k1 := false, k2 := false, k3 := false }, events := [] } := by
  norm_num [updateBall, integrateBall, applySpot, resolveBounds, stickySpots,
    inStickyRange, inCaptureDisk, slowEnough, List.foldl, STICKY_RADIUS,
    STICKY_STRENGTH, CORNER_CAPTURE_THRESHOLD, CORNER_CAPTURE_RADIUS_FACTOR,
    BOUNCE_EFFICIENCY, GRAVITY, FRICTION]

theorem c2Tick42 : updateBall 600 600 0 GRAVITY { x := 150, y := ((1083116020847184086639174440398367235219704981296097601890873440195793261405481865455601 : ℚ)/2000000000000000000000000000000000000000000000000000000000000000000000000000000000000), vx := 0, vy := ((34089737163159756700614399591935684492730252714180832304132591513173805440348668025701 : ℚ)/2000000000000000000000000000000000000000000000000000000000000000000000000000000000000), radius := 15 } { captured := false, cornerIndex := -1 } { k0 := false, k1 := false, k2 := false, k3 := false } = { ball := { x := 150, y := ((111785486063871224577278269599438356286750793148313662587196470579383532879142704680104499 : ℚ)/200000000000000000000000000000000000000000000000000000000000000000000000000000000000000), vx := 0, vy := ((3473883979152815913360825559601632764780295018703902398109126559804206738594518134544399 : ℚ)/200000000000000000000000000000000000000000000000000000000000000000000000000000000000000), radius := 15 }, state := { captured := false, cornerIndex := -1 }, cache := { k0 := false, k1 := false, k2 := false, k3 := false }, events := [] } := by
  norm_num [updateBall, integrateBall, applySpot, resolveBounds, stickySpots,
    inStickyRange, inCaptureDisk, slowEnough, List.foldl, STICKY_RADIUS,
    STICKY_STRENGTH, CORNER_CAPTURE_THRESHOLD, CORNER_CAPTURE_RADIUS_FACTOR,
    BOUNCE_EFFICIENCY, GRAVITY, FRICTION]

theorem c2Tick43 : updateBall 600 600 0 GRAVITY { x := 150, y := ((111785486063871224577278269599438356286750793148313662587196470579383532879142704680104499 : ℚ)/200000000000000000000000000000000000000000000000000000000000000000000000000000000000000), vx := 0, vy := ((3473883979152815913360825559601632764780295018703902398109126559804206738594518134544399 : ℚ)/200000000000000000000000000000000000000000000000000000000000000000000000000000000000000), radius := 15 } { captured := false, cornerIndex := -1 } { k0 := false, k1 := false, k2 := false, k3 := false } = { ball := { x := 150, y := ((11532363120323251233150548690344397272388328521683052596132450587358969755035127763330345401 : ℚ)/20000000000000000000000000000000000000000000000000000000000000000000000000000000000000000), vx := 0, vy := ((353814513936128775422721730400561643713249206851686337412803529420616467120857295319895501 : ℚ)/20000000000000000000000000000000000000000000000000000000000000000000000000000000000000000), radius := 15 }, state := { captured := false, cornerIndex := -1 }, cache := { k0 := false, k1 := false, k2 := false, k3 := false }, events := [] } := by
  norm_num [updateBall, integrateBall, applySpot, resolveBounds, stickySpots,
    inStickyRange, inCaptureDisk, slowEnough, List.foldl, STICKY_RADIUS,
    STICKY_STRENGTH, CORNER_CAPTURE_THRESHOLD, CORNER_CAPTURE_RADIUS_FACTOR,
    BOUNCE_EFFICIENCY, GRAVITY, FRICTION]

theorem c2Tick44 : updateBall 600 600 0 GRAVITY { x := 150, y := ((11532363120323251233150548690344397272388328521683052596132450587358969755035127763330345401 : ℚ)/20000000000000000000000000000000000000000000000000000000000000000000000000000000000000000), vx := 0, vy := ((353814513936128775422721730400561643713249206851686337412803529420616467120857295319895501 : ℚ)/20000000000000000000000000000000000000000000000000000000000000000000000000000000000000000), radius := 15 } { captured := false, cornerIndex := -1 } { k0 := false, k1 := false, k2 := false, k3 := false } = { ball := { x := 150, y := (585 : ℚ), vx := 0, vy := ((-324158731917090738901645061786900424548505043304852526634807944713769272204683850130026891391 : ℚ)/20000000000000000000000000000000000000000000000000000000000000000000000000000000000000000000), radius := 15 }, state := { captured := false, cornerIndex := -1 }, cache := { k0 := false, k1 := false, k2 := false, k3 := false }, events := [GameEvent.boink ((36017636879676748766849451309655602727611671478316947403867549412641030244964872236669654599 : ℚ)/2000000000000000000000000000000000000000000000000000000000000000000000000000000000000000000)] } := by
  norm_num [updateBall, integrateBall, applySpot, resolveBounds, stickySpots,
    inStickyRange, inCaptureDisk, slowEnough, List.foldl, STICKY_RADIUS,
    STICKY_STRENGTH, CORNER_CAPTURE_THRESHOLD, CORNER_CAPTURE_RADIUS_FACTOR,
    BOUNCE_EFFICIENCY, GRAVITY, FRICTION]

theorem c2SimEq25 : c2Sim 25 = { ball := { x := 150, y := ((59742714347103751245765575679986212757795547921492699 : ℚ)/200000000000000000000000000000000000000000000000000), vx := 0, vy := ((2199568541948446957113479033535492800426307596752599 : ℚ)/200000000000000000000000000000000000000000000000000), radius := 15 }, state := { captured := false, cornerIndex := -1 }, cache := { k0 := false, k1 := false, k2 := false, k3 := false }, events := [] } := by
  simp only [c2Sim, c2Ball0, c2Tick0, c2Tick1, c2Tick2, c2Tick3, c2Tick4, c2Tick5, c2Tick6, c2Tick7, c2Tick8, c2Tick9, c2Tick10, c2Tick11, c2Tick12, c2Tick13, c2Tick14, c2Tick15, c2Tick16, c2Tick17, c2Tick18, c2Tick19, c2Tick20, c2Tick21, c2Tick22, c2Tick23, c2Tick24]

theorem c2SimEq27 : c2Sim 27 = { ball := { x := 150, y := ((643720943315963865959748407239544871239154165178549942899 : ℚ)/2000000000000000000000000000000000000000000000000000000), vx := 0, vy := ((23528071279636728626669208007681364936978240755772222799 : ℚ)/2000000000000000000000000000000000000000000000000000000), radius := 15 }, state := { captured := false, cornerIndex := -1 }, cache := { k0 := false, k1 := false, k2 := false, k3 := false }, events := [] } := by
  simp only [c2Sim, c2Ball0, c2Tick0, c2Tick1, c2Tick2, c2Tick3, c2Tick4, c2Tick5, c2Tick6, c2Tick7, c2Tick8, c2Tick9, c2Tick10, c2Tick11, c2Tick12, c2Tick13, c2Tick14, c2Tick15, c2Tick16, c2Tick17, c2Tick18, c2Tick19, c2Tick20, c2Tick21, c2Tick22, c2Tick23, c2Tick24, c2Tick25, c2Tick26]

theorem c2SimEq44 : c2Sim 44 = { ball := { x := 150, y := ((11532363120323251233150548690344397272388328521683052596132450587358969755035127763330345401 : ℚ)/20000000000000000000000000000000000000000000000000000000000000000000000000000000000000000), vx := 0, vy := ((353814513936128775422721730400561643713249206851686337412803529420616467120857295319895501 : ℚ)/20000000000000000000000000000000000000000000000000000000000000000000000000000000000000000), radius := 15 }, state := { captured := false, cornerIndex := -1 }, cache := { k0 := false, k1 := false, k2 := false, k3 := false }, events := [] } := by
  simp only [c2Sim, c2Ball0, c2Tick0, c2Tick1, c2Tick2, c2Tick3, c2Tick4, c2Tick5, c2Tick6, c2Tick7, c2Tick8, c2Tick9, c2Tick10, c2Tick11, c2Tick12, c2Tick13, c2Tick14, c2Tick15, c2Tick16, c2Tick17, c2Tick18, c2Tick19, c2Tick20, c2Tick21, c2Tick22, c2Tick23, c2Tick24, c2Tick25, c2Tick26, c2Tick27, c2Tick28, c2Tick29, c2Tick30, c2Tick31, c2Tick32, c2Tick33, c2Tick34, c2Tick35, c2Tick36, c2Tick37, c2Tick38, c2Tick39, c2Tick40, c2Tick41, c2Tick42, c2Tick43]

theorem c2SimEq45 : c2Sim 45 = { ball := { x := 150, y := (585 : ℚ), vx := 0, vy := ((-324158731917090738901645061786900424548505043304852526634807944713769272204683850130026891391 : ℚ)/20000000000000000000000000000000000000000000000000000000000000000000000000000000000000000000), radius := 15 }, state := { captured := false, cornerIndex := -1 }, cache := { k0 := false, k1 := false, k2 := false, k3 := false }, events := [GameEvent.boink ((36017636879676748766849451309655602727611671478316947403867549412641030244964872236669654599 : ℚ)/2000000000000000000000000000000000000000000000000000000000000000000000000000000000000000000)] } := by
  simp only [c2Sim, c2Ball0, c2Tick0, c2Tick1, c2Tick2, c2Tick3, c2Tick4, c2Tick5, c2Tick6, c2Tick7, c2Tick8, c2Tick9, c2Tick10, c2Tick11, c2Tick12, c2Tick13, c2Tick14, c2Tick15, c2Tick16, c2Tick17, c2Tick18, c2Tick19, c2Tick20, c2Tick21, c2Tick22, c2Tick23, c2Tick24, c2Tick25, c2Tick26, c2Tick27, c2Tick28, c2Tick29, c2Tick30, c2Tick31, c2Tick32, c2Tick33, c2Tick34, c2Tick35, c2Tick36, c2Tick37, c2Tick38, c2Tick39, c2Tick40, c2Tick41, c2Tick42, c2Tick43, c2Tick44]


/-- Claim C2 counterexample: in the spec scenario (600 by 600 arena,
quadrant-0 body starting at rest at (150,150), constant force
(0, GRAVITY)), after 25 ticks the body's center is already below the
claimed inset boundary y = 298 and still falling, and after 27 ticks the
whole body (center minus radius) is below the arena midline y = 300 with
no bounce having occurred: the code resolves collisions against the full
arena, not a quadrant inset rectangle. -/
theorem c2_quadrant_walls_refuted :
    (c2Sim 25).ball.y > 298 ∧ (c2Sim 25).ball.vy > 0 ∧
    (c2Sim 27).ball.y - (c2Sim 27).ball.radius > 300 ∧ (c2Sim 27).ball.vy > 0 := by
  rw [c2SimEq25, c2SimEq27]
  norm_num

/-- Claim C2 amended: boundary collision is resolved against the full
arena rectangle; in the spec scenario the body first bounces on tick 45,
when its integrated position would cross the arena bottom
(y + radius > 600): the position is clamped to y = 600 - BALL_RADIUS = 585
and the vertical velocity is reversed to -0.9 times its pre-bounce
value. -/
theorem c2_arena_bottom_bounce :
    (integrateBall 600 600 0 GRAVITY (c2Sim 44).ball (c2Sim 44).state
        (c2Sim 44).cache).ball.y + BALL_RADIUS > 600 ∧
    (c2Sim 45).ball.y = 600 - BALL_RADIUS ∧
    (c2Sim 45).ball.vy =
      -(integrateBall 600 600 0 GRAVITY (c2Sim 44).ball (c2Sim 44).state
          (c2Sim 44).cache).ball.vy * BOUNCE_EFFICIENCY ∧
    (c2Sim 45).ball.vy < 0 := by
  rw [c2SimEq44, c2SimEq45]
  norm_num [integrateBall, applySpot, stickySpots, inStickyRange, List.foldl,
    STICKY_RADIUS, STICKY_STRENGTH, BALL_RADIUS, BOUNCE_EFFICIENCY, GRAVITY, FRICTION]


/-- Claim C1: the win evaluator returns true iff every body is captured
and the set of distinct corner indices across all bodies has exactly
REQUIRED_CORNERS = 4 members. -/
theorem c1_win_evaluator_iff (states : List BallState)
    (hlen : states.length = REQUIRED_CORNERS) :
    checkWinCondition states = true ↔
      (∀ st ∈ states, st.captured = true) ∧
      (states.map fun st => st.cornerIndex).toFinset.card = REQUIRED_CORNERS := by
  rw [checkWinCondition, if_neg (by simp [hlen])]
  simp [List.all_eq_true, List.card_toFinset]

/-- Witness for claim C1: four captured bodies at the four distinct
corners satisfy the win condition. -/
theorem c1_win_evaluator_iff_witness :
    checkWinCondition
      [ { captured := true, cornerIndex := 0 },
        { captured := true, cornerIndex := 1 },
        { captured := true, cornerIndex := 2 },
        { captured := true, cornerIndex := 3 } ] = true :=
  (c1_win_evaluator_iff _ (by rfl)).mpr (by decide)

/-- Claim C3 counterexample: position (0, 20) is within STICKY_RADIUS of
corner zone 0 by Euclidean distance alone and fails the spec's two-axis
test at the only sub-ring threshold the program defines (the capture-disk
radius 15), yet the code treats it as in the outer ring: the sticky
branch fires and dampens the velocity. -/
theorem c3_two_axis_test_refuted :
    inStickyRange 0 20 { x := 0, y := 0, isCorner := true, index := 0 } = true ∧
    isWithinCornerRegion (STICKY_RADIUS * CORNER_CAPTURE_RADIUS_FACTOR) 0 20
      { x := 0, y := 0, isCorner := true, index := 0 } = false ∧
    (applySpot
      { ball := { x := 0, y := 20, vx := 1, vy := 0, radius := 15 },
        state := { captured := false, cornerIndex := -1 },
        cache := { k0 := false, k1 := false, k2 := false, k3 := false },
        events := [] }
      { x := 0, y := 0, isCorner := true, index := 0 }).ball.vx
      = 1 * STICKY_STRENGTH := by
  norm_num [inStickyRange, isWithinCornerRegion, applySpot, inCaptureDisk,
    slowEnough, STICKY_RADIUS, STICKY_STRENGTH, CORNER_CAPTURE_RADIUS_FACTOR,
    CORNER_CAPTURE_THRESHOLD]

/-- Claim C3 amended: outer-ring membership is decided by the Euclidean
test alone.  A spot's dampening applies to a body exactly when the
squared distance test `inStickyRange` holds, and the sticky loop never
moves the body; no per-axis test is involved. -/
theorem c3_outer_ring_is_euclidean (acc : TickAcc) (spot : Spot) :
    ((applySpot acc spot).ball.vx =
      if inStickyRange acc.ball.x acc.ball.y spot
      then acc.ball.vx * STICKY_STRENGTH else acc.ball.vx) ∧
    ((applySpot acc spot).ball.vy =
      if inStickyRange acc.ball.x acc.ball.y spot
      then acc.ball.vy * STICKY_STRENGTH else acc.ball.vy) ∧
    (applySpot acc spot).ball.x = acc.ball.x ∧
    (applySpot acc spot).ball.y = acc.ball.y := by
  simp only [applySpot]
  split_ifs <;> simp

/-- Full characterization of the boundary-collision block under the sane
arena assumption that the body's diameter fits the arena: each axis is
clamped into the arena and its velocity component is reflected and
scaled by BOUNCE_EFFICIENCY exactly when its edge check fires. -/
theorem resolveBounds_eq (w h : ℚ) (b : Ball)
    (hw : 2 * b.radius ≤ w) (hh : 2 * b.radius ≤ h) :
    (resolveBounds w h b).1 =
      { b with
        x := if b.x - b.radius < 0 then b.radius
             else if b.x + b.radius > w then w - b.radius else b.x,
        vx := if b.x - b.radius < 0 ∨ b.x + b.radius > w
              then -b.vx * BOUNCE_EFFICIENCY else b.vx,
        y := if b.y - b.radius < 0 then b.radius
             else if b.y + b.radius > h then h - b.radius else b.y,
        vy := if b.y - b.radius < 0 ∨ b.y + b.radius > h
              then -b.vy * BOUNCE_EFFICIENCY else b.vy } := by
  simp only [resolveBounds]
  split_ifs <;> first
    | rfl
    | (exfalso; first | linarith | tauto)


/-- The sticky-spot loop never changes a ball's radius. -/
theorem applySpot_radius (acc : TickAcc) (spot : Spot) :
    (applySpot acc spot).ball.radius = acc.ball.radius := by
  simp only [applySpot]
  split_ifs <;> rfl

/-- Folding the sticky-spot loop over any spot list keeps the radius. -/
theorem foldl_applySpot_radius (l : List Spot) (acc : TickAcc) :
    (l.foldl applySpot acc).ball.radius = acc.ball.radius := by
  induction l generalizing acc with
  | nil => rfl
  | cons s t ih => rw [List.foldl_cons, ih, applySpot_radius]

/-- Integration keeps the ball's radius. -/
theorem integrateBall_radius (w h ax ay : ℚ) (b : Ball) (st : BallState)
    (cache : CaptureCache) :
    (integrateBall w h ax ay b st cache).ball.radius = b.radius := by
  simp only [integrateBall]
  rw [foldl_applySpot_radius]

/-- Claim C6: on every axis whose edge check fires, the post-bounce
velocity component is exactly -BOUNCE_EFFICIENCY times the pre-bounce
component and the position is clamped to the corresponding boundary;
components whose checks do not fire are untouched. -/
theorem c6_bounce_scales_velocity (w h : ℚ) (b : Ball)
    (hw : 2 * b.radius ≤ w) (hh : 2 * b.radius ≤ h) :
    ((resolveBounds w h b).1.vx =
      if b.x - b.radius < 0 ∨ b.x + b.radius > w
      then -b.vx * BOUNCE_EFFICIENCY else b.vx) ∧
    ((resolveBounds w h b).1.x =
      if b.x - b.radius < 0 then b.radius
      else if b.x + b.radius > w then w - b.radius else b.x) ∧
    ((resolveBounds w h b).1.vy =
      if b.y - b.radius < 0 ∨ b.y + b.radius > h
      then -b.vy * BOUNCE_EFFICIENCY else b.vy) ∧
    ((resolveBounds w h b).1.y =
      if b.y - b.radius < 0 then b.radius
      else if b.y + b.radius > h then h - b.radius else b.y) := by
  rw [resolveBounds_eq w h b hw hh]
  exact ⟨rfl, rfl, rfl, rfl⟩

/-- Witness for claim C6: a ball crossing the left edge at x = -5 with
vx = 2 is clamped to x = radius = 15 and gets vx = -2 * 0.9. -/
theorem c6_bounce_scales_velocity_witness :
    (resolveBounds 600 600
      { x := -5, y := 300, vx := 2, vy := 1, radius := 15 }).1.vx
      = -(2 * BOUNCE_EFFICIENCY) ∧
    (resolveBounds 600 600
      { x := -5, y := 300, vx := 2, vy := 1, radius := 15 }).1.x = 15 ∧
    (resolveBounds 600 600
      { x := -5, y := 300, vx := 2, vy := 1, radius := 15 }).1.vy = 1 := by
  have hc := c6_bounce_scales_velocity 600 600
    { x := -5, y := 300, vx := 2, vy := 1, radius := 15 }
    (by norm_num) (by norm_num)
  norm_num at hc
  exact ⟨hc.1, hc.2.1, hc.2.2.1⟩

/-- Claim C10: after a tick's boundary resolution the body lies within
the arena on both axes, whenever the body's diameter fits the arena. -/
theorem c10_position_within_arena (w h ax ay : ℚ) (b : Ball)
    (st : BallState) (cache : CaptureCache)
    (hw : 2 * b.radius ≤ w) (hh : 2 * b.radius ≤ h) :
    b.radius ≤ (updateBall w h ax ay b st cache).ball.x ∧
    (updateBall w h ax ay b st cache).ball.x ≤ w - b.radius ∧
    b.radius ≤ (updateBall w h ax ay b st cache).ball.y ∧
    (updateBall w h ax ay b st cache).ball.y ≤ h - b.radius := by
  have hrad : (integrateBall w h ax ay b st cache).ball.radius = b.radius :=
    integrateBall_radius w h ax ay b st cache
  have heq := resolveBounds_eq w h (integrateBall w h ax ay b st cache).ball
    (by rw [hrad]; exact hw) (by rw [hrad]; exact hh)
  simp only [updateBall]
  rw [heq]
  simp only [hrad]
  refine ⟨?_, ?_, ?_, ?_⟩ <;> split_ifs <;> linarith

/-- Witness for claim C10: a concrete ball pushed past the left and
bottom edges ends the tick inside the arena. -/
theorem c10_position_within_arena_witness :
    (15 : ℚ) ≤ (updateBall 600 600 0 GRAVITY
      { x := 2, y := 590, vx := -40, vy := 40, radius := 15 }
      { captured := false, cornerIndex := -1 }
      { k0 := false, k1 := false, k2 := false, k3 := false }).ball.x ∧
    (updateBall 600 600 0 GRAVITY
      { x := 2, y := 590, vx := -40, vy := 40, radius := 15 }
      { captured := false, cornerIndex := -1 }
      { k0 := false, k1 := false, k2 := false, k3 := false }).ball.x ≤ 600 - 15 ∧
    (15 : ℚ) ≤ (updateBall 600 600 0 GRAVITY
      { x := 2, y := 590, vx := -40, vy := 40, radius := 15 }
      { captured := false, cornerIndex := -1 }
      { k0 := false, k1 := false, k2 := false, k3 := false }).ball.y ∧
    (updateBall 600 600 0 GRAVITY
      { x := 2, y := 590, vx := -40, vy := 40, radius := 15 }
      { captured := false, cornerIndex := -1 }
      { k0 := false, k1 := false, k2 := false, k3 := false }).ball.y ≤ 600 - 15 :=
  c10_position_within_arena 600 600 0 GRAVITY
    { x := 2, y := 590, vx := -40, vy := 40, radius := 15 }
    { captured := false, cornerIndex := -1 }
    { k0 := false, k1 := false, k2 := false, k3 := false }
    (by norm_num) (by norm_num)


/-- A spot outside whose sticky range the ball sits has no effect at
all. -/
theorem applySpot_out_of_range (acc : TickAcc) (spot : Spot)
    (h : inStickyRange acc.ball.x acc.ball.y spot = false) :
    applySpot acc spot = acc := by
  simp [applySpot, h]

/-- Folding the sticky loop over spots that are all out of range is the
identity. -/
theorem foldl_applySpot_out_of_range (l : List Spot) (acc : TickAcc)
    (h : ∀ spot ∈ l, inStickyRange acc.ball.x acc.ball.y spot = false) :
    l.foldl applySpot acc = acc := by
  induction l with
  | nil => rfl
  | cons s t ih =>
    rw [List.foldl_cons, applySpot_out_of_range acc s (h s (by simp))]
    exact ih fun spot hs => h spot (by simp [hs])

/-- Claim C4 counterexample: a body recorded captured at zone 0 but
located at (100,100), outside the outer ring of every zone (distance to
zone 0 is about 141 >= STICKY_RADIUS), keeps its capture state, the
cache entry stays set and no escape event fires on the tick. -/
theorem c4_escape_outside_ring_refuted :
    (updateBall 600 600 0 GRAVITY
      { x := 100, y := 100, vx := 0, vy := 0, radius := 15 }
      { captured := true, cornerIndex := 0 }
      { k0 := true, k1 := false, k2 := false, k3 := false }).state
      = { captured := true, cornerIndex := 0 } ∧
    (updateBall 600 600 0 GRAVITY
      { x := 100, y := 100, vx := 0, vy := 0, radius := 15 }
      { captured := true, cornerIndex := 0 }
      { k0 := true, k1 := false, k2 := false, k3 := false }).events = [] ∧
    (updateBall 600 600 0 GRAVITY
      { x := 100, y := 100, vx := 0, vy := 0, radius := 15 }
      { captured := true, cornerIndex := 0 }
      { k0 := true, k1 := false, k2 := false, k3 := false }).cache.k0 = true := by
  norm_num [updateBall, integrateBall, applySpot, resolveBounds, stickySpots,
    inStickyRange, inCaptureDisk, slowEnough, List.foldl, STICKY_RADIUS,
    STICKY_STRENGTH, CORNER_CAPTURE_THRESHOLD, CORNER_CAPTURE_RADIUS_FACTOR,
    BOUNCE_EFFICIENCY, GRAVITY, FRICTION]

/-- Claim C4 amended: on a tick where a captured body is outside the
outer ring of every zone, the capture state machine leaves the capture
state and the cache untouched and fires neither a capture nor an escape
event; clearing and the escape event happen only when the body is inside
the outer ring of its capture zone but fails the capture predicate. -/
theorem c4_no_transition_outside_ring (w h ax ay : ℚ) (b : Ball)
    (st : BallState) (cache : CaptureCache) (hcap : st.captured = true)
    (hout : ∀ spot ∈ stickySpots w h, inStickyRange b.x b.y spot = false) :
    (updateBall w h ax ay b st cache).state = st ∧
    (updateBall w h ax ay b st cache).cache = cache ∧
    (updateBall w h ax ay b st cache).events.count GameEvent.tada = 0 ∧
    (updateBall w h ax ay b st cache).events.count GameEvent.wahwah = 0 := by
  have hfold : (stickySpots w h).foldl applySpot
      { ball := { b with
          vx := (b.vx + ax) * FRICTION,
          vy := (b.vy + ay) * FRICTION },
        state := st, cache := cache, events := [] } =
      { ball := { b with
          vx := (b.vx + ax) * FRICTION,
          vy := (b.vy + ay) * FRICTION },
        state := st, cache := cache, events := [] } :=
    foldl_applySpot_out_of_range _ _ (by simpa using hout)
  simp only [updateBall, integrateBall, hfold]
  refine ⟨trivial, trivial, ?_, ?_⟩ <;> (split_ifs <;> simp)

/-- Witness for claim C4 amended: the (100,100) body of the
counterexample scenario indeed satisfies the out-of-range hypotheses. -/
theorem c4_no_transition_outside_ring_witness :
    (updateBall 600 600 0 GRAVITY
      { x := 100, y := 100, vx := 0, vy := 0, radius := 15 }
      { captured := true, cornerIndex := 2 }
      { k0 := false, k1 := false, k2 := true, k3 := false }).state
      = { captured := true, cornerIndex := 2 } ∧
    (updateBall 600 600 0 GRAVITY
      { x := 100, y := 100, vx := 0, vy := 0, radius := 15 }
      { captured := true, cornerIndex := 2 }
      { k0 := false, k1 := false, k2 := true, k3 := false }).cache
      = { k0 := false, k1 := false, k2 := true, k3 := false } ∧
    (updateBall 600 600 0 GRAVITY
      { x := 100, y := 100, vx := 0, vy := 0, radius := 15 }
      { captured := true, cornerIndex := 2 }
      { k0 := false, k1 := false, k2 := true, k3 := false }).events.count
      GameEvent.tada = 0 ∧
    (updateBall 600 600 0 GRAVITY
      { x := 100, y := 100, vx := 0, vy := 0, radius := 15 }
      { captured := true, cornerIndex := 2 }
      { k0 := false, k1 := false, k2 := true, k3 := false }).events.count
      GameEvent.wahwah = 0 :=
  c4_no_transition_outside_ring 600 600 0 GRAVITY
    { x := 100, y := 100, vx := 0, vy := 0, radius := 15 }
    { captured := true, cornerIndex := 2 }
    { k0 := false, k1 := false, k2 := true, k3 := false }
    rfl
    (by
      intro spot hs
      simp only [stickySpots, List.mem_cons, List.not_mem_nil, or_false] at hs
      rcases hs with rfl | rfl | rfl | rfl | rfl <;>
        norm_num [inStickyRange, STICKY_RADIUS])


/-- The inner capture disk is contained in the sticky ring. -/
theorem inStickyRange_of_inCaptureDisk (px py : ℚ) (s : Spot)
    (h : inCaptureDisk px py s = true) : inStickyRange px py s = true := by
  simp only [inCaptureDisk, inStickyRange, STICKY_RADIUS,
    CORNER_CAPTURE_RADIUS_FACTOR, decide_eq_true_eq] at h ⊢
  nlinarith [h]

/-- Claim C5 counterexample: a body recorded captured at zone 1 but
meeting the capture predicate at zone 0 (at rest inside zone 0's capture
disk) has its capture zone silently reassigned from 1 to 0: the state
changes but neither a capture nor an escape event fires, and zone 1's
cache entry is left set. -/
theorem c5_event_per_transition_refuted :
    (updateBall 600 600 0 GRAVITY
      { x := 0, y := 10, vx := 0, vy := 0, radius := 15 }
      { captured := true, cornerIndex := 1 }
      { k0 := false, k1 := true, k2 := false, k3 := false }).state
      = { captured := true, cornerIndex := 0 } ∧
    (updateBall 600 600 0 GRAVITY
      { x := 0, y := 10, vx := 0, vy := 0, radius := 15 }
      { captured := true, cornerIndex := 1 }
      { k0 := false, k1 := true, k2 := false, k3 := false }).events.count
      GameEvent.tada = 0 ∧
    (updateBall 600 600 0 GRAVITY
      { x := 0, y := 10, vx := 0, vy := 0, radius := 15 }
      { captured := true, cornerIndex := 1 }
      { k0 := false, k1 := true, k2 := false, k3 := false }).events.count
      GameEvent.wahwah = 0 ∧
    (updateBall 600 600 0 GRAVITY
      { x := 0, y := 10, vx := 0, vy := 0, radius := 15 }
      { captured := true, cornerIndex := 1 }
      { k0 := false, k1 := true, k2 := false, k3 := false }).cache.k1 = true := by
  norm_num [updateBall, integrateBall, applySpot, resolveBounds, stickySpots,
    inStickyRange, inCaptureDisk, slowEnough, CaptureCache.set, List.foldl,
    STICKY_RADIUS, STICKY_STRENGTH, CORNER_CAPTURE_THRESHOLD,
    CORNER_CAPTURE_RADIUS_FACTOR, BOUNCE_EFFICIENCY, GRAVITY, FRICTION,
    List.count_cons, List.count_nil, beq_iff_eq]
  exact ⟨nofun, nofun⟩

/-- Claim C5 amended: for a body interacting with corner zone 0 only, a
fresh capture (not-captured body meeting the capture predicate) fires
exactly one capture event and no escape event, and a tick in which an
already-captured body still meets the predicate at its own zone fires no
capture or escape event at all; but a captured body meeting the
predicate at a different zone is silently reassigned. -/
theorem c5_capture_event_exactly_once (ax ay : ℚ) (b : Ball)
    (cache : CaptureCache)
    (hC : inStickyRange b.x b.y
      { x := (600 : ℚ) / 2, y := (600 : ℚ) / 2, isCorner := false, index := -1 } = false)
    (h1 : inStickyRange b.x b.y
      { x := 600, y := 0, isCorner := true, index := 1 } = false)
    (h2 : inStickyRange b.x b.y
      { x := 0, y := 600, isCorner := true, index := 2 } = false)
    (h3 : inStickyRange b.x b.y
      { x := 600, y := 600, isCorner := true, index := 3 } = false)
    (h0 : inCaptureDisk b.x b.y
      { x := 0, y := 0, isCorner := true, index := 0 } = true)
    (hv : slowEnough ((b.vx + ax) * FRICTION * STICKY_STRENGTH)
      ((b.vy + ay) * FRICTION * STICKY_STRENGTH) = true) :
    ((updateBall 600 600 ax ay b { captured := false, cornerIndex := -1 } cache).state
      = { captured := true, cornerIndex := 0 }) ∧
    (updateBall 600 600 ax ay b { captured := false, cornerIndex := -1 } cache).events.count
      GameEvent.tada = 1 ∧
    (updateBall 600 600 ax ay b { captured := false, cornerIndex := -1 } cache).events.count
      GameEvent.wahwah = 0 ∧
    ((updateBall 600 600 ax ay b { captured := true, cornerIndex := 0 } cache).state
      = { captured := true, cornerIndex := 0 }) ∧
    (updateBall 600 600 ax ay b { captured := true, cornerIndex := 0 } cache).events.count
      GameEvent.tada = 0 ∧
    (updateBall 600 600 ax ay b { captured := true, cornerIndex := 0 } cache).events.count
      GameEvent.wahwah = 0 := by
  have hr0 : inStickyRange b.x b.y
      { x := 0, y := 0, isCorner := true, index := 0 } = true :=
    inStickyRange_of_inCaptureDisk _ _ _ h0
  simp only [updateBall, integrateBall, stickySpots, List.foldl, applySpot,
    hC, h1, h2, h3, h0, hr0, hv, Bool.false_eq_true, if_false, if_true,
    Bool.true_and, Bool.and_true, Bool.not_false, Bool.not_true,
    Bool.and_false, Bool.false_and, Bool.and_self]
  refine ⟨trivial, ?_, ?_, trivial, ?_, ?_⟩ <;>
    (split_ifs <;> simp [List.count_append, List.count_cons, List.count_nil])


/-- Witness for claim C5 amended: the body at rest at (0,10) in corner
0's capture disk under force (0, GRAVITY). -/
theorem c5_capture_event_exactly_once_witness :
    ((updateBall 600 600 0 GRAVITY
      { x := 0, y := 10, vx := 0, vy := 0, radius := 15 }
      { captured := false, cornerIndex := -1 }
      { k0 := false, k1 := false, k2 := false, k3 := false }).state
      = { captured := true, cornerIndex := 0 }) ∧
    (updateBall 600 600 0 GRAVITY
      { x := 0, y := 10, vx := 0, vy := 0, radius := 15 }
      { captured := false, cornerIndex := -1 }
      { k0 := false, k1 := false, k2 := false, k3 := false }).events.count
      GameEvent.tada = 1 ∧
    (updateBall 600 600 0 GRAVITY
      { x := 0, y := 10, vx := 0, vy := 0, radius := 15 }
      { captured := false, cornerIndex := -1 }
      { k0 := false, k1 := false, k2 := false, k3 := false }).events.count
      GameEvent.wahwah = 0 ∧
    ((updateBall 600 600 0 GRAVITY
      { x := 0, y := 10, vx := 0, vy := 0, radius := 15 }
      { captured := true, cornerIndex := 0 }
      { k0 := false, k1 := false, k2 := false, k3 := false }).state
      = { captured := true, cornerIndex := 0 }) ∧
    (updateBall 600 600 0 GRAVITY
      { x := 0, y := 10, vx := 0, vy := 0, radius := 15 }
      { captured := true, cornerIndex := 0 }
      { k0 := false, k1 := false, k2 := false, k3 := false }).events.count
      GameEvent.tada = 0 ∧
    (updateBall 600 600 0 GRAVITY
      { x := 0, y := 10, vx := 0, vy := 0, radius := 15 }
      { captured := true, cornerIndex := 0 }
      { k0 := false, k1 := false, k2 := false, k3 := false }).events.count
      GameEvent.wahwah = 0 :=
  c5_capture_event_exactly_once 0 GRAVITY
    { x := 0, y := 10, vx := 0, vy := 0, radius := 15 }
    { k0 := false, k1 := false, k2 := false, k3 := false }
    (by norm_num [inStickyRange, STICKY_RADIUS])
    (by norm_num [inStickyRange, STICKY_RADIUS])
    (by norm_num [inStickyRange, STICKY_RADIUS])
    (by norm_num [inStickyRange, STICKY_RADIUS])
    (by norm_num [inCaptureDisk, STICKY_RADIUS, CORNER_CAPTURE_RADIUS_FACTOR])
    (by norm_num [slowEnough, FRICTION, STICKY_STRENGTH,
      CORNER_CAPTURE_THRESHOLD, GRAVITY])

/-- One sticky-loop iteration preserves capture-state wellformedness for
any spot that is either not a corner or carries a corner index 0-3. -/
theorem applySpot_stateOkB (acc : TickAcc) (spot : Spot)
    (hspot : spot.isCorner = false ∨ spot.index = 0 ∨ spot.index = 1
      ∨ spot.index = 2 ∨ spot.index = 3)
    (h : stateOkB acc.state = true) :
    stateOkB (applySpot acc spot).state = true := by
  simp only [applySpot]
  split_ifs with hin hcorner hcapture hescape hstill
  · rcases hspot with hc | hi | hi | hi | hi
    · rw [hcorner] at hc; cases hc
    all_goals simp [stateOkB, hi]
  · simp [stateOkB]
  · rcases hspot with hc | hi | hi | hi | hi
    · rw [hcorner] at hc; cases hc
    all_goals simp [stateOkB, hi]
  · exact h
  · exact h
  · exact h

/-- Folding the sticky loop over the spot list of the arena preserves
capture-state wellformedness. -/
theorem foldl_applySpot_stateOkB (l : List Spot) (acc : TickAcc)
    (hl : ∀ spot ∈ l, spot.isCorner = false ∨ spot.index = 0 ∨ spot.index = 1
      ∨ spot.index = 2 ∨ spot.index = 3)
    (h : stateOkB acc.state = true) :
    stateOkB ((l.foldl applySpot acc).state) = true := by
  induction l generalizing acc with
  | nil => exact h
  | cons s t ih =>
    rw [List.foldl_cons]
    exact ih _ (fun spot hs => hl spot (by simp [hs]))
      (applySpot_stateOkB acc s (hl s (by simp)) h)

/-- One body tick preserves capture-state wellformedness. -/
theorem updateBall_stateOkB (w h ax ay : ℚ) (b : Ball) (st : BallState)
    (cache : CaptureCache) (hst : stateOkB st = true) :
    stateOkB (updateBall w h ax ay b st cache).state = true := by
  simp only [updateBall, integrateBall]
  exact foldl_applySpot_stateOkB _ _
    (by intro spot hs
        simp only [stickySpots, List.mem_cons, List.not_mem_nil, or_false] at hs
        rcases hs with rfl | rfl | rfl | rfl | rfl <;> simp) hst

/-- Updating all bodies preserves capture-state wellformedness. -/
theorem updateBalls_stateOkB (w h ax ay : ℚ) :
    ∀ (balls : List Ball) (states : List BallState) (cache : CaptureCache),
    states.all stateOkB = true →
    (updateBalls w h ax ay balls states cache).states.all stateOkB = true := by
  intro balls
  induction balls with
  | nil => intro states cache hs; cases states <;> simp [updateBalls]
  | cons b bs ih =>
    intro states cache hs
    cases states with
    | nil => simp [updateBalls]
    | cons st sts =>
      simp only [updateBalls, List.all_cons, Bool.and_eq_true] at hs ⊢
      exact ⟨updateBall_stateOkB w h ax ay b st cache hs.1, ih sts _ hs.2⟩

/-- Claim C7: the engine's initial capture states are wellformed, and a
tick of the engine preserves wellformedness: a captured body always
records a corner index 0-3, an uncaptured body records -1, and a body
records at most one capture zone at a time (a single cornerIndex
field). -/
theorem c7_capture_state_wellformed (w h ax ay : ℚ) (s : EngineState)
    (hs : s.ballStates.all stateOkB = true) :
    (initBalls w h).2.1.all stateOkB = true ∧
    (update w h ax ay s).1.ballStates.all stateOkB = true := by
  constructor
  · simp [initBalls, stateOkB]
  · by_cases hrun : s.gameRunning
    · simp only [update, hrun, Bool.not_true, Bool.false_eq_true, if_false]
      exact updateBalls_stateOkB w h ax ay s.balls s.ballStates s.cache hs
    · simp only [Bool.not_eq_true] at hrun
      simp only [update, hrun, Bool.not_false, if_true]
      exact hs

/-- Witness for claim C7: a concrete engine state with one captured and
three free bodies stays wellformed after a tick. -/
theorem c7_capture_state_wellformed_witness :
    (initBalls 600 600).2.1.all stateOkB = true ∧
    (update 600 600 0 GRAVITY
      { balls := [ { x := 0, y := 10, vx := 0, vy := 0, radius := 15 },
                   { x := 450, y := 450, vx := 0, vy := 0, radius := 15 } ],
        ballStates := [ { captured := true, cornerIndex := 0 },
                        { captured := false, cornerIndex := -1 } ],
        cache := { k0 := true, k1 := false, k2 := false, k3 := false },
        gameRunning := true }).1.ballStates.all stateOkB = true :=
  c7_capture_state_wellformed 600 600 0 GRAVITY
    { balls := [ { x := 0, y := 10, vx := 0, vy := 0, radius := 15 },
                 { x := 450, y := 450, vx := 0, vy := 0, radius := 15 } ],
      ballStates := [ { captured := true, cornerIndex := 0 },
                      { captured := false, cornerIndex := -1 } ],
      cache := { k0 := true, k1 := false, k2 := false, k3 := false },
      gameRunning := true }
    (by decide)


/-- Claim C8 failing run: in `c8State`, body 0 (processed first) is
freshly captured at zone 0 and sets the cache entry, then body 1
(processed second) escapes from zone 0 and clears the same entry.  After
the tick, body 0 is captured at zone 0 yet the zone-0 cache entry is
false: the cache diverges from the exists-a-captured-body predicate the
source's comments describe. -/
theorem c8_cache_out_of_sync :
    (update 600 600 0 GRAVITY c8State).1.ballStates =
      [ { captured := true, cornerIndex := 0 },
        { captured := false, cornerIndex := -1 },
        { captured := false, cornerIndex := -1 },
        { captured := false, cornerIndex := -1 } ] ∧
    (update 600 600 0 GRAVITY c8State).1.cache.k0 = false := by
  norm_num [c8State, update, updateBalls, updateBall, integrateBall, applySpot,
    resolveBounds, stickySpots, inStickyRange, inCaptureDisk, slowEnough,
    CaptureCache.set, List.foldl, STICKY_RADIUS, STICKY_STRENGTH,
    CORNER_CAPTURE_THRESHOLD, CORNER_CAPTURE_RADIUS_FACTOR, BOUNCE_EFFICIENCY,
    GRAVITY, FRICTION]

/-- A stopped engine ignores a tick completely. -/
theorem update_stopped (w h ax ay : ℚ) (s : EngineState)
    (hs : s.gameRunning = false) : update w h ax ay s = (s, []) := by
  simp [update, hs]

/-- A stopped engine ignores every subsequent input sequence. -/
theorem tickSeq_stopped (inputs : List (ℚ × ℚ × ℚ × ℚ)) (s : EngineState)
    (h : s.gameRunning = false) : tickSeq inputs s = s := by
  induction inputs with
  | nil => rfl
  | cons p rest ih =>
    obtain ⟨w, hw, ax, ay⟩ := p
    show tickSeq rest (update w hw ax ay s).1 = s
    rw [update_stopped w hw ax ay s h]
    exact ih

/-- Claim C9: on a tick whose resulting capture states satisfy the win
evaluator, the engine clears `gameRunning`, and from then on every
further tick, under any inputs, leaves the whole engine state (bodies,
velocities, capture states, cache) unchanged. -/
theorem c9_win_halts_engine (w h ax ay : ℚ)
    (inputs : List (ℚ × ℚ × ℚ × ℚ)) (s : EngineState)
    (hrun : s.gameRunning = true)
    (hwin : checkWinCondition (update w h ax ay s).1.ballStates = true) :
    (update w h ax ay s).1.gameRunning = false ∧
    tickSeq inputs (update w h ax ay s).1 = (update w h ax ay s).1 := by
  have hg : (update w h ax ay s).1.gameRunning = false := by
    simp only [update, hrun, Bool.not_true, Bool.false_eq_true, if_false] at hwin ⊢
    simp [hwin]
  exact ⟨hg, tickSeq_stopped inputs _ hg⟩

/-- Witness for claim C9: from `c9State` (all four bodies captured at
distinct corners) one tick wins and freezes the engine for any later
inputs. -/
theorem c9_win_halts_engine_witness :
    (update 600 600 0 GRAVITY c9State).1.gameRunning = false ∧
    tickSeq [(600, 600, 3, 5), (600, 600, 0, GRAVITY)]
      (update 600 600 0 GRAVITY c9State).1 = (update 600 600 0 GRAVITY c9State).1 :=
  c9_win_halts_engine 600 600 0 GRAVITY [(600, 600, 3, 5), (600, 600, 0, GRAVITY)]
    c9State rfl
    (by
      have hstates : (update 600 600 0 GRAVITY c9State).1.ballStates =
          [ { captured := true, cornerIndex := 0 },
            { captured := true, cornerIndex := 1 },
            { captured := true, cornerIndex := 2 },
            { captured := true, cornerIndex := 3 } ] := by
        norm_num [c9State, update, updateBalls, updateBall, integrateBall,
          applySpot, resolveBounds, stickySpots, inStickyRange, inCaptureDisk,
          slowEnough, CaptureCache.set, List.foldl, STICKY_RADIUS,
          STICKY_STRENGTH, CORNER_CAPTURE_THRESHOLD,
          CORNER_CAPTURE_RADIUS_FACTOR, BOUNCE_EFFICIENCY, GRAVITY, FRICTION]
      rw [hstates]
      decide)

end PhoneGame
